import Mathlib

/-!
Verification development for the Castle Defense simulation core.

Shallow embedding of the Python sources under `Castle_Defense/`:
`config.py`, `features/towers/base_tower.py`, `features/towers/archer_tower.py`,
`features/towers/sniper_tower.py`, `features/towers/factory.py`,
`features/monsters/wave_manager.py`, `states/game_over_state.py`,
`states/tower_placement_state.py`, `game.py`, `save_system.py`.

Machine reals are modelled by `ℚ` (all constants in play are rationals and the
arithmetic performed on them is exact in this range), Python `int` by `ℤ`/`ℕ`,
Python dictionaries by association lists, and Python object identity for
monsters by numeric ids into an explicit store.  Purely visual state (colors,
rects used only for drawing, glow/animation bookkeeping other than the timers
the logic reads) is omitted; every field the simulation logic reads or writes
is present.
-/

/- ----------------------------------------------------------------
   config.py
   ---------------------------------------------------------------- -/

/-- `SCALE_X = WINDOW_WIDTH / REF_WIDTH = 1920 / 800` (config.py). -/
def SCALE_X : ℚ := 1920 / 800

/-- Modelled from the spec: `utils.scale_value` (utils.py is not under `src/`;
the spec lists coordinate scaling as out-of-scope glue).  Linear scaling of a
reference-resolution value by the window/reference ratio. -/
def scale_value (x : ℚ) : ℚ := x * SCALE_X

/-- `TOWER_TYPES[t]["damage"]`, with `.get`-default 10 (base_tower.py line 41). -/
def tower_config_damage (t : String) : ℚ :=
  if t = "Archer" then 10 else if t = "Sniper" then 50
  else if t = "Splash" then 20 else if t = "Frozen" then 5 else 10

/-- `TOWER_TYPES[t]["attack_speed"]`, with `.get`-default 1.0. -/
def tower_config_attack_speed (t : String) : ℚ :=
  if t = "Archer" then 3/2 else if t = "Sniper" then 1/2
  else if t = "Splash" then 4/5 else if t = "Frozen" then 1 else 1

/-- `TOWER_TYPES[t]["range"]`, with `.get`-default 150. -/
def tower_config_range (t : String) : ℚ :=
  if t = "Archer" then 150 else if t = "Sniper" then 300
  else if t = "Splash" then 200 else if t = "Frozen" then 180 else 150

/-- `TOWER_TYPES[t]["cost"]`, with `.get`-default `{"Stone": 20}`
(the default used by the upgrade-cost calculators in base_tower.py). -/
def tower_config_cost (t : String) : List (String × ℤ) :=
  if t = "Archer" then [("Stone", 20)]
  else if t = "Sniper" then [("Stone", 40), ("Iron", 10)]
  else if t = "Splash" then [("Stone", 30), ("Iron", 5), ("Copper", 2)]
  else if t = "Frozen" then [("Stone", 25), ("Iron", 5), ("Copper", 3)]
  else [("Stone", 20)]

/-- `TOWER_TYPES[t]["aoe_radius"]` (Splash only), `.get`-default 50. -/
def tower_config_aoe_radius (t : String) : ℚ :=
  if t = "Splash" then 50 else 50

/-- `TOWER_TYPES[t]["slow_effect"]` (Frozen only), `.get`-default 0.5. -/
def tower_config_slow_effect (t : String) : ℚ :=
  if t = "Frozen" then 1/2 else 1/2

/-- `TOWER_TYPES[t]["slow_duration"]` (Frozen only), `.get`-default 3.0. -/
def tower_config_slow_duration (t : String) : ℚ :=
  if t = "Frozen" then 3 else 3

/-- `TOWER_MONSTER_COIN_COSTS`, with the `.get`-default 5 used by the
upgrade-cost calculators (base_tower.py lines 230, 255, 280). -/
def tower_monster_coin_cost (t : String) : ℤ :=
  if t = "Archer" then 15 else if t = "Sniper" then 50
  else if t = "Splash" then 65 else if t = "Frozen" then 65 else 5

/-- `TOWER_MONSTER_COIN_COSTS.get(t, 0)` as used by tower placement
(tower_placement_state.py line 191). -/
def tower_monster_coin_cost_placement (t : String) : ℤ :=
  if t = "Archer" then 15 else if t = "Sniper" then 50
  else if t = "Splash" then 65 else if t = "Frozen" then 65 else 0

/-- `TOWER_TYPES.get(t, {}).get("cost", {})` as used by tower placement:
unknown types get the empty cost map, not the `{"Stone": 20}` default. -/
def tower_placement_cost (t : String) : List (String × ℤ) :=
  if t = "Archer" then [("Stone", 20)]
  else if t = "Sniper" then [("Stone", 40), ("Iron", 10)]
  else if t = "Splash" then [("Stone", 30), ("Iron", 5), ("Copper", 2)]
  else if t = "Frozen" then [("Stone", 25), ("Iron", 5), ("Copper", 3)]
  else []

def TOWER_UPGRADE_COST_MULTIPLIER : ℚ := 3/2
def TOWER_MONSTER_COIN_UPGRADE_MULTIPLIER : ℚ := 13/10
def TOWER_DAMAGE_UPGRADE_MULTIPLIER : ℚ := 13/10
def TOWER_ATTACK_SPEED_UPGRADE_MULTIPLIER : ℚ := 6/5
def TOWER_RANGE_UPGRADE_MULTIPLIER : ℚ := 6/5

/-- `ITEM_EFFECTS["Unstoppable Force"]["aoe_radius_multiplier"]` (1.3). -/
def UF_AOE_RADIUS_MULTIPLIER : ℚ := 13/10

/-- `ITEM_EFFECTS["Unstoppable Force"]["splash_damage_radius"]` (30). -/
def UF_SPLASH_DAMAGE_RADIUS : ℚ := 30

def MONSTER_SPAWN_INTERVAL : ℚ := 3/2
def WAVE_MONSTER_COUNT_BASE : ℚ := 5
def WAVE_MONSTER_COUNT_MULTIPLIER : ℚ := 3/2

/- ----------------------------------------------------------------
   Economy ledger
   ---------------------------------------------------------------- -/

/-- Modelled from the spec: the Economy Ledger (`features/resources.py` is not
under `src/`; spec §6 specifies its interface: `getAmount`, `hasAll`,
`spendAll` atomic all-or-nothing, `add`, plus the single-resource spend the
tower code calls).  A resource-kind → integer-quantity map, as an association
list (first occurrence of a key is authoritative, as in a Python dict). -/
def ResourceManager : Type := List (String × ℤ)

/-- `resources.get(kind, 0)`. -/
def get_resource : ResourceManager → String → ℤ
  | [], _ => 0
  | (k', v) :: rest, k => if k' = k then v else get_resource rest k

/-- `add_resource(kind, amount)`: add to an existing entry, or create one. -/
def add_resource : ResourceManager → String → ℤ → ResourceManager
  | [], k, a => [(k, a)]
  | (k', v) :: rest, k, a =>
      if k' = k then (k', v + a) :: rest else (k', v) :: add_resource rest k a

/-- `spend_resource(kind, amount)`: spend iff affordable; returns the new
ledger and whether the spend happened. -/
def spend_resource (rm : ResourceManager) (k : String) (a : ℤ) :
    ResourceManager × Bool :=
  if a ≤ get_resource rm k then (add_resource rm k (-a), true) else (rm, false)

/-- `has_resources(cost)`: every entry of the cost map is affordable. -/
def has_resources (rm : ResourceManager) (cost : List (String × ℤ)) : Bool :=
  cost.all fun p => decide (p.2 ≤ get_resource rm p.1)

/-- `spend_resources(cost)`: atomic all-or-nothing multi-resource spend. -/
def spend_resources (rm : ResourceManager) (cost : List (String × ℤ)) :
    ResourceManager × Bool :=
  if has_resources rm cost then
    (cost.foldl (fun r p => add_resource r p.1 (-p.2)) rm, true)
  else (rm, false)

/-- `has_resources_for_tower(cost, monster_coin_cost)`: the in-kind cost and
the Monster Coin cost are both affordable. -/
def has_resources_for_tower (rm : ResourceManager) (cost : List (String × ℤ))
    (mc : ℤ) : Bool :=
  has_resources rm cost && decide (mc ≤ get_resource rm "Monster Coins")

/-- `spend_resources_for_tower(cost, monster_coin_cost)`: atomic spend of the
in-kind cost plus the Monster Coin cost. -/
def spend_resources_for_tower (rm : ResourceManager) (cost : List (String × ℤ))
    (mc : ℤ) : ResourceManager × Bool :=
  if has_resources_for_tower rm cost mc then
    (add_resource (cost.foldl (fun r p => add_resource r p.1 (-p.2)) rm)
      "Monster Coins" (-mc), true)
  else (rm, false)

/- ----------------------------------------------------------------
   Adversaries (monsters)
   ---------------------------------------------------------------- -/

/-- Modelled from the spec (§3 Adversary, §4.1): `features/monsters/monster.py`
and `boss_monster.py` are not under `src/`; only the fields and the
`take_damage` contract the in-src code reads are modelled.  `loot` is the
resource-type → quantity map a boss's `drop_loot()` returns; `is_boss` stands
for the `isinstance(monster, BossMonster)` test in wave_manager.py. -/
structure Monster where
  position : ℚ × ℚ
  health : ℚ
  max_health : ℚ
  is_dead : Bool
  reached_castle : Bool
  flying : Bool
  is_boss : Bool
  loot : List (String × ℤ)
deriving DecidableEq

/-- Modelled from the spec (§4.1): `takeDamage(amount)` subtracts the amount
from health, clamped at 0, and returns whether health remains positive. -/
def Monster.take_damage (m : Monster) (amount : ℚ) : Monster × Bool :=
  let h := max 0 (m.health - amount)
  ({ m with health := h }, decide (0 < h))

/-- Default monster used to totalize list indexing (only read on out-of-range
indices, which the theorems exclude). -/
def Monster.dummy : Monster :=
  { position := (0, 0), health := 0, max_health := 0, is_dead := true,
    reached_castle := false, flying := false, is_boss := false, loot := [] }

/-- Look a monster up in a store by id (Python object references are modelled
as indices into the ambient list of monsters). -/
def getM (ms : List Monster) (i : ℕ) : Monster := ms.getD i Monster.dummy

/- ----------------------------------------------------------------
   Defense (tower) data model — base_tower.py
   ---------------------------------------------------------------- -/

/-- The `Tower` state (base_tower.py `__init__` plus the Splash/Frozen fields
its specific-property setup creates).  The Splash-only fields (`aoe_radius`
family) and Frozen-only fields (`slow_*` family) are present for every
variant, holding their config base values; the code only reads them for the
variant that owns them.  `targets` holds monster ids (see `getM`).  Purely
visual fields (rect, colors, glow, attack-animation bookkeeping) are
omitted. -/
structure Tower where
  position : ℚ × ℚ
  tower_type : String
  level : ℕ
  damage_level : ℕ
  attack_speed_level : ℕ
  range_level : ℕ
  damage : ℚ
  attack_speed : ℚ
  ref_range : ℚ
  range : ℚ
  base_damage : ℚ
  base_attack_speed : ℚ
  base_range : ℚ
  base_ref_range : ℚ
  attack_timer : ℚ
  targets : List ℕ
  item_slots : List (Option String)
  has_item_effects : Bool
  splash_damage_enabled : Bool
  splash_damage_radius : ℚ
  ref_aoe_radius : ℚ
  aoe_radius : ℚ
  base_ref_aoe_radius : ℚ
  base_aoe_radius : ℚ
  aoe_radius_level : ℕ
  slow_effect : ℚ
  slow_duration : ℚ
  base_slow_effect : ℚ
  base_slow_duration : ℚ
  slow_effect_level : ℕ
  slow_duration_level : ℕ
  selected : Bool
deriving DecidableEq

/-- `Tower.__init__(position, tower_type)` together with the
specific-property setup it ends with (base_tower.py lines 22–133). -/
def Tower.mk' (position : ℚ × ℚ) (tower_type : String) : Tower :=
  { position := position
    tower_type := tower_type
    level := 1
    damage_level := 1
    attack_speed_level := 1
    range_level := 1
    damage := tower_config_damage tower_type
    attack_speed := tower_config_attack_speed tower_type
    ref_range := tower_config_range tower_type
    range := scale_value (tower_config_range tower_type)
    base_damage := tower_config_damage tower_type
    base_attack_speed := tower_config_attack_speed tower_type
    base_range := scale_value (tower_config_range tower_type)
    base_ref_range := tower_config_range tower_type
    attack_timer := 0
    targets := []
    item_slots := [none, none]
    has_item_effects := false
    splash_damage_enabled := false
    splash_damage_radius := 0
    ref_aoe_radius := tower_config_aoe_radius tower_type
    aoe_radius := scale_value (tower_config_aoe_radius tower_type)
    base_ref_aoe_radius := tower_config_aoe_radius tower_type
    base_aoe_radius := scale_value (tower_config_aoe_radius tower_type)
    aoe_radius_level := 1
    slow_effect := tower_config_slow_effect tower_type
    slow_duration := tower_config_slow_duration tower_type
    base_slow_effect := tower_config_slow_effect tower_type
    base_slow_duration := tower_config_slow_duration tower_type
    slow_effect_level := 1
    slow_duration_level := 1
    selected := false }

/-- One iteration of the `for item in self.item_slots` loop in
`apply_item_effects` (base_tower.py lines 476–511): the "Unstoppable Force"
branch per tower variant; "Serene Spirit" changes only the (omitted) glow. -/
def Tower.apply_one_item (t : Tower) (item : Option String) : Tower :=
  match item with
  | none => t
  | some it =>
    if it = "Unstoppable Force" then
      if t.tower_type = "Splash" ∨ t.tower_type = "Frozen" then
        if t.tower_type = "Splash" then
          { t with ref_aoe_radius := t.ref_aoe_radius * UF_AOE_RADIUS_MULTIPLIER,
                   aoe_radius := scale_value (t.ref_aoe_radius * UF_AOE_RADIUS_MULTIPLIER) }
        else
          { t with ref_range := t.ref_range * UF_AOE_RADIUS_MULTIPLIER,
                   range := scale_value (t.ref_range * UF_AOE_RADIUS_MULTIPLIER) }
      else if t.tower_type = "Archer" ∨ t.tower_type = "Sniper" then
        { t with splash_damage_enabled := true,
                 splash_damage_radius := scale_value UF_SPLASH_DAMAGE_RADIUS }
      else t
    else t

/-- The reset phase of `Tower.apply_item_effects` (base_tower.py lines
447–463): every derived stat back to its base value — the variant-specific
stats only for the variant that owns them — and the splash side-effect
cleared. -/
def Tower.reset_derived (t : Tower) : Tower :=
  let t1 :=
    { t with damage := t.base_damage
             attack_speed := t.base_attack_speed
             ref_range := t.base_ref_range
             range := t.base_range }
  let t2 :=
    if t1.tower_type = "Splash" then
      { t1 with ref_aoe_radius := t1.base_ref_aoe_radius,
                aoe_radius := t1.base_aoe_radius }
    else if t1.tower_type = "Frozen" then
      { t1 with slow_effect := t1.base_slow_effect,
                slow_duration := t1.base_slow_duration }
    else t1
  { t2 with splash_damage_enabled := false, splash_damage_radius := 0 }

/-- `Tower.apply_item_effects` (base_tower.py lines 445–511): reset every
derived stat to its base value, then re-apply each equipped item's effect
exactly once. -/
def Tower.apply_item_effects (t : Tower) : Tower :=
  let t3 := t.reset_derived
  if ¬ t3.item_slots.any Option.isSome then
    { t3 with has_item_effects := false }
  else
    t3.item_slots.foldl Tower.apply_one_item
      { t3 with has_item_effects := true }

/-- `Tower.add_item(item, slot_index, resource_manager)` (base_tower.py lines
388–417): return any previously-slotted item to the ledger, slot the new one,
spend one unit of it, recompute stats.  Returns `false` for an invalid slot. -/
def Tower.add_item (t : Tower) (item : String) (slot_index : ℕ)
    (rm : ResourceManager) : Tower × ResourceManager × Bool :=
  if slot_index < t.item_slots.length then
    let rm1 := match t.item_slots.getD slot_index none with
      | some current => add_resource rm current 1
      | none => rm
    let slots := t.item_slots.set slot_index (some item)
    let rm2 := (spend_resource rm1 item 1).1
    (Tower.apply_item_effects { t with item_slots := slots }, rm2, true)
  else (t, rm, false)

/-- `Tower.remove_item(slot_index, resource_manager)` (base_tower.py lines
419–443): clear the slot, recompute stats, return the item to the ledger. -/
def Tower.remove_item (t : Tower) (slot_index : ℕ) (rm : ResourceManager) :
    Tower × ResourceManager × Option String :=
  match t.item_slots.getD slot_index none with
  | some removed =>
    if slot_index < t.item_slots.length then
      let slots := t.item_slots.set slot_index none
      (Tower.apply_item_effects { t with item_slots := slots },
       add_resource rm removed 1, some removed)
    else (t, rm, none)
  | none => (t, rm, none)

/- ----------------------------------------------------------------
   Tower upgrades — base_tower.py lines 208–370
   ---------------------------------------------------------------- -/

/-- `calculate_damage_upgrade_cost` (base_tower.py lines 208–221): each base
cost entry scaled by `TOWER_UPGRADE_COST_MULTIPLIER ** (damage_level - 1)` and
truncated with `int(...)` (the values are positive, so truncation is floor). -/
def Tower.calculate_damage_upgrade_cost (t : Tower) : List (String × ℤ) :=
  (tower_config_cost t.tower_type).map fun p =>
    (p.1, ⌊(p.2 : ℚ) * TOWER_UPGRADE_COST_MULTIPLIER ^ (t.damage_level - 1)⌋)

/-- `calculate_damage_upgrade_monster_coin_cost` (base_tower.py lines 223–231). -/
def Tower.calculate_damage_upgrade_monster_coin_cost (t : Tower) : ℤ :=
  ⌊(tower_monster_coin_cost t.tower_type : ℚ) *
    TOWER_MONSTER_COIN_UPGRADE_MULTIPLIER ^ (t.damage_level - 1)⌋

/-- `calculate_attack_speed_upgrade_cost` (base_tower.py lines 233–246). -/
def Tower.calculate_attack_speed_upgrade_cost (t : Tower) : List (String × ℤ) :=
  (tower_config_cost t.tower_type).map fun p =>
    (p.1, ⌊(p.2 : ℚ) * TOWER_UPGRADE_COST_MULTIPLIER ^ (t.attack_speed_level - 1)⌋)

/-- `calculate_attack_speed_upgrade_monster_coin_cost` (lines 248–256). -/
def Tower.calculate_attack_speed_upgrade_monster_coin_cost (t : Tower) : ℤ :=
  ⌊(tower_monster_coin_cost t.tower_type : ℚ) *
    TOWER_MONSTER_COIN_UPGRADE_MULTIPLIER ^ (t.attack_speed_level - 1)⌋

/-- `calculate_range_upgrade_cost` (base_tower.py lines 258–271). -/
def Tower.calculate_range_upgrade_cost (t : Tower) : List (String × ℤ) :=
  (tower_config_cost t.tower_type).map fun p =>
    (p.1, ⌊(p.2 : ℚ) * TOWER_UPGRADE_COST_MULTIPLIER ^ (t.range_level - 1)⌋)

/-- `calculate_range_upgrade_monster_coin_cost` (lines 273–281). -/
def Tower.calculate_range_upgrade_monster_coin_cost (t : Tower) : ℤ :=
  ⌊(tower_monster_coin_cost t.tower_type : ℚ) *
    TOWER_MONSTER_COIN_UPGRADE_MULTIPLIER ^ (t.range_level - 1)⌋

/-- `Tower.upgrade_damage(resource_manager)` (base_tower.py lines 283–310):
check both costs, then spend the in-kind cost atomically, spend the Monster
Coins, bump the base stat and the level, and recompute item effects. -/
def Tower.upgrade_damage (t : Tower) (rm : ResourceManager) :
    Tower × ResourceManager × Bool :=
  let cost := t.calculate_damage_upgrade_cost
  let mc := t.calculate_damage_upgrade_monster_coin_cost
  if ¬ (has_resources rm cost) ∨ get_resource rm "Monster Coins" < mc then
    (t, rm, false)
  else
    let sp := spend_resources rm cost
    if sp.2 then
      let rm2 := (spend_resource sp.1 "Monster Coins" mc).1
      (Tower.apply_item_effects
        { t with base_damage := t.base_damage * TOWER_DAMAGE_UPGRADE_MULTIPLIER,
                 damage_level := t.damage_level + 1,
                 level := t.level + 1 }, rm2, true)
    else (t, sp.1, false)

/-- `Tower.upgrade_attack_speed(resource_manager)` (lines 312–339). -/
def Tower.upgrade_attack_speed (t : Tower) (rm : ResourceManager) :
    Tower × ResourceManager × Bool :=
  let cost := t.calculate_attack_speed_upgrade_cost
  let mc := t.calculate_attack_speed_upgrade_monster_coin_cost
  if ¬ (has_resources rm cost) ∨ get_resource rm "Monster Coins" < mc then
    (t, rm, false)
  else
    let sp := spend_resources rm cost
    if sp.2 then
      let rm2 := (spend_resource sp.1 "Monster Coins" mc).1
      (Tower.apply_item_effects
        { t with base_attack_speed :=
                   t.base_attack_speed * TOWER_ATTACK_SPEED_UPGRADE_MULTIPLIER,
                 attack_speed_level := t.attack_speed_level + 1,
                 level := t.level + 1 }, rm2, true)
    else (t, sp.1, false)

/-- `Tower.upgrade_range(resource_manager)` (lines 341–370): upgrades both the
reference and the scaled base range. -/
def Tower.upgrade_range (t : Tower) (rm : ResourceManager) :
    Tower × ResourceManager × Bool :=
  let cost := t.calculate_range_upgrade_cost
  let mc := t.calculate_range_upgrade_monster_coin_cost
  if ¬ (has_resources rm cost) ∨ get_resource rm "Monster Coins" < mc then
    (t, rm, false)
  else
    let sp := spend_resources rm cost
    if sp.2 then
      let rm2 := (spend_resource sp.1 "Monster Coins" mc).1
      (Tower.apply_item_effects
        { t with base_ref_range := t.base_ref_range * TOWER_RANGE_UPGRADE_MULTIPLIER,
                 base_range := scale_value (t.base_ref_range * TOWER_RANGE_UPGRADE_MULTIPLIER),
                 range_level := t.range_level + 1,
                 level := t.level + 1 }, rm2, true)
    else (t, sp.1, false)

/- ----------------------------------------------------------------
   Tower factory — features/towers/factory.py
   ---------------------------------------------------------------- -/

/-- `TowerFactory.create_tower(tower_type, position)`: the four known variants
construct a tower; anything else raises `ValueError` (modelled as `.error`). -/
def TowerFactory.create_tower (tower_type : String) (position : ℚ × ℚ) :
    Except String Tower :=
  if tower_type = "Archer" then .ok (Tower.mk' position "Archer")
  else if tower_type = "Sniper" then .ok (Tower.mk' position "Sniper")
  else if tower_type = "Splash" then .ok (Tower.mk' position "Splash")
  else if tower_type = "Frozen" then .ok (Tower.mk' position "Frozen")
  else .error ("Unknown tower type: " ++ tower_type)

/- ----------------------------------------------------------------
   Attacks — archer_tower.py / sniper_tower.py
   ---------------------------------------------------------------- -/

/-- Squared Euclidean distance; `utils.distance` is `sqrt` of this. -/
def distSq (p q : ℚ × ℚ) : ℚ := (p.1 - q.1) ^ 2 + (p.2 - q.2) ^ 2

/-- The exact boolean value of `sqrt d2 ≤ r` for `d2 ≥ 0`, computed without
leaving `ℚ`: true iff `r` is nonnegative and `d2 ≤ r²`.  Used wherever the
Python code compares `utils.distance(...)` against a radius. -/
def sqrtLe (d2 r : ℚ) : Bool := decide (0 ≤ r) && decide (d2 ≤ r ^ 2)

/-- The splash-damage loop shared verbatim by `ArcherTower.attack` and
`SniperTower.attack`: every in-range target other than the primary that is
alive and within the splash radius of the primary takes 50% of the tower's
damage; those killed by it are collected.  `ti` is the primary target's id and
`tpos` its position; the fold threads the monster store. -/
def splash_loop (dmg radius : ℚ) (tpos : ℚ × ℚ) (ti : ℕ)
    (targets : List ℕ) (ms : List Monster) : List Monster × List ℕ :=
  targets.foldl
    (fun acc mi =>
      if mi = ti then acc
      else
        let m := getM acc.1 mi
        if m.is_dead then acc
        else if sqrtLe (distSq m.position tpos) radius then
          let r := m.take_damage (dmg * (1/2))
          (acc.1.set mi r.1, if r.2 then acc.2 else acc.2 ++ [mi])
        else acc)
    (ms, [])

/-- `ArcherTower.attack` (archer_tower.py lines 12–74), restricted to its
simulation effect: damage the closest target, apply splash damage if the
"Unstoppable Force" splash effect is enabled, and collect the killed monsters.
The final "handle all killed monsters" loop iterates over `Game` instances
found in the tower module's own `globals()`; that dictionary never contains
the game instance, so the loop body never runs and the routine has no ledger
effect — the killed list is returned for the caller.  Returns the updated
monster store and the killed ids. -/
def ArcherTower.attack (t : Tower) (ms : List Monster) :
    List Monster × List ℕ :=
  match t.targets with
  | [] => (ms, [])
  | ti :: _ =>
    let target := getM ms ti
    if target.is_dead then (ms, [])
    else
      let pr := target.take_damage t.damage
      let primary_killed := ¬ pr.2
      let ms1 := ms.set ti pr.1
      let sp :=
        if t.splash_damage_enabled ∧ 0 < t.splash_damage_radius then
          splash_loop t.damage t.splash_damage_radius target.position ti
            t.targets ms1
        else (ms1, [])
      (sp.1, (if primary_killed then [ti] else []) ++ sp.2)

/-- `max(self.targets, key=lambda m: m.health)`: the first target attaining
the maximal health (Python's `max` keeps the earliest maximum). -/
def max_health_target (ms : List Monster) (i : ℕ) (rest : List ℕ) : ℕ :=
  rest.foldl (fun best j =>
    if (getM ms best).health < (getM ms j).health then j else best) i

/-- `SniperTower.attack` (sniper_tower.py lines 12–74): identical to the
archer's attack except the primary target is the highest-health target in
range.  Same remark about the dead-letter `globals()` loop. -/
def SniperTower.attack (t : Tower) (ms : List Monster) :
    List Monster × List ℕ :=
  match t.targets with
  | [] => (ms, [])
  | i :: rest =>
    let ti := max_health_target ms i rest
    let target := getM ms ti
    if target.is_dead then (ms, [])
    else
      let pr := target.take_damage t.damage
      let primary_killed := ¬ pr.2
      let ms1 := ms.set ti pr.1
      let sp :=
        if t.splash_damage_enabled ∧ 0 < t.splash_damage_radius then
          splash_loop t.damage t.splash_damage_radius target.position ti
            t.targets ms1
        else (ms1, [])
      (sp.1, (if primary_killed then [ti] else []) ++ sp.2)

/- ----------------------------------------------------------------
   Save system — save_system.py lines 214–279
   ---------------------------------------------------------------- -/

/-- The dictionary `serialize_tower` builds.  `ttype` is the `"type"` key
(Python reserves nothing, but `type` is better avoided in Lean). -/
structure TowerData where
  ttype : String
  position : ℚ × ℚ
  level : ℕ
  damage : ℚ
  attack_speed : ℚ
  range : ℚ
  item_slots : List (Option String)
  aoe_radius : Option ℚ
  slow_effect : Option ℚ
  slow_duration : Option ℚ
deriving DecidableEq

/-- `tower.__class__.__name__`: the factory subclasses are `ArcherTower`,
`SniperTower`, `SplashTower`, `FrozenTower` — the variant tag with the
`Tower` suffix appended. -/
def Tower.class_name (t : Tower) : String := t.tower_type ++ "Tower"

/-- `SaveManager.serialize_tower` (save_system.py lines 214–242): records the
class name, position, overall level, current derived stats, item slots, and
the variant-specific stats keyed off the class name. -/
def SaveManager.serialize_tower (t : Tower) : TowerData :=
  { ttype := t.class_name
    position := t.position
    level := t.level
    damage := t.damage
    attack_speed := t.attack_speed
    range := t.range
    item_slots := t.item_slots
    aoe_radius := if t.class_name = "SplashTower" then some t.aoe_radius else none
    slow_effect := if t.class_name = "FrozenTower" then some t.slow_effect else none
    slow_duration := if t.class_name = "FrozenTower" then some t.slow_duration else none }

/-- `SaveManager.deserialize_tower` (save_system.py lines 244–279): re-drive
the factory with the saved `"type"`; on success copy the saved common
properties and (keyed off the saved type again) the variant-specific ones; on
`ValueError` fall back to a fresh default Archer tower at the saved
position. -/
def SaveManager.deserialize_tower_ok (d : TowerData) (t0 : Tower) : Tower :=
  let t1 := { t0 with level := d.level, damage := d.damage,
                      attack_speed := d.attack_speed, range := d.range,
                      item_slots := d.item_slots }
  if d.ttype = "SplashTower" then
    match d.aoe_radius with
    | some a => { t1 with aoe_radius := a }
    | none => t1
  else if d.ttype = "FrozenTower" then
    match d.slow_effect with
    | some se =>
      match d.slow_duration with
      | some sd => { t1 with slow_effect := se, slow_duration := sd }
      | none => t1
    | none => t1
  else t1

def SaveManager.deserialize_tower (d : TowerData) : Tower :=
  match TowerFactory.create_tower d.ttype d.position with
  | .ok t0 => SaveManager.deserialize_tower_ok d t0
  | .error _ => Tower.mk' d.position "Archer"

/- ----------------------------------------------------------------
   Wave scheduler — features/monsters/wave_manager.py
   ---------------------------------------------------------------- -/

/-- The `WaveManager` state (wave_manager.py `__init__`), together with the
monster store: Python holds monster objects by reference in
`active_monsters`; here monsters live in `store` (id → monster) and
`active_monsters` holds their ids, `next_id` being the next fresh id.  The
spawn path (`spawn_path`) is dead data and omitted. -/
structure WaveState where
  current_wave : ℕ
  active_monsters : List ℕ
  spawn_timer : ℚ
  monsters_to_spawn : ℕ
  wave_active : Bool
  wave_completed : Bool
  wave_start_animation_timer : ℚ
  wave_complete_animation_timer : ℚ
  continuous_wave : Bool
  store : ℕ → Monster
  next_id : ℕ

/-- `WaveManager.__init__`. -/
def WaveState.init : WaveState :=
  { current_wave := 0
    active_monsters := []
    spawn_timer := 0
    monsters_to_spawn := 0
    wave_active := false
    wave_completed := true
    wave_start_animation_timer := 0
    wave_complete_animation_timer := 0
    continuous_wave := true
    store := fun _ => Monster.dummy
    next_id := 0 }

/-- `WaveManager.start_next_wave` (wave_manager.py lines 43–70): no-op
returning `false` if a wave is active; otherwise increment the wave number,
raise the active flag, and compute the spawn quota — 1 for every 10th wave,
otherwise `int(base_count + current_wave * 0.5 * multiplier ** (current_wave
// 10))` (positive, so `int` truncation is floor). -/
def WaveState.start_next_wave (s : WaveState) : WaveState × Bool :=
  if ¬ s.wave_active then
    let w := s.current_wave + 1
    let quota : ℕ :=
      if w % 10 = 0 then 1
      else ⌊WAVE_MONSTER_COUNT_BASE + (w : ℚ) * (1/2) *
              WAVE_MONSTER_COUNT_MULTIPLIER ^ (w / 10)⌋.toNat
    ({ s with current_wave := w
              wave_active := true
              wave_completed := false
              spawn_timer := 0
              wave_start_animation_timer := 1
              monsters_to_spawn := quota }, true)
  else (s, false)

/-- `WaveManager.handle_monster_death(monster, resource_manager)`
(wave_manager.py lines 218–245): return immediately unless the monster is in
`active_monsters`; otherwise set its dead flag, credit 1 Monster Coin, and
for a boss credit its loot map.  Note what the code does NOT do: it neither
tests `is_dead` nor removes the monster from `active_monsters`. -/
def WaveState.handle_monster_death (s : WaveState) (mid : ℕ)
    (rm : ResourceManager) : WaveState × ResourceManager :=
  if mid ∈ s.active_monsters then
    let m := s.store mid
    let s1 := { s with store := Function.update s.store mid { m with is_dead := true } }
    let rm1 := add_resource rm "Monster Coins" 1
    let rm2 := if m.is_boss then
        m.loot.foldl (fun r p => add_resource r p.1 p.2) rm1
      else rm1
    (s1, rm2)
  else (s, rm)

/-- First animation-timer decrement at the top of `WaveManager.update`. -/
def WaveState.tick_start_anim (s : WaveState) (dt : ℚ) : WaveState :=
  if 0 < s.wave_start_animation_timer then
    { s with wave_start_animation_timer := s.wave_start_animation_timer - dt }
  else s

/-- Second animation-timer decrement at the top of `WaveManager.update`. -/
def WaveState.tick_complete_anim (s : WaveState) (dt : ℚ) : WaveState :=
  if 0 < s.wave_complete_animation_timer then
    { s with wave_complete_animation_timer := s.wave_complete_animation_timer - dt }
  else s

/-- The animation-timer decrements at the top of `WaveManager.update`. -/
def WaveState.update_anim_timers (s : WaveState) (dt : ℚ) : WaveState :=
  (s.tick_start_anim dt).tick_complete_anim dt

/-- The spawn step of `WaveManager.update` (lines 90–94): accumulate the
spawn timer; when it reaches the interval and quota remains, append one new
monster and reset the timer.  `new_monster` stands for the monster the
factory builds (the factory and its randomness are not under `src/`; the
spec models spawning as creating one adversary of a wave-dependent kind). -/
def WaveState.spawn_step (s : WaveState) (dt : ℚ) (new_monster : Monster) :
    WaveState :=
  let s1 := { s with spawn_timer := s.spawn_timer + dt }
  if MONSTER_SPAWN_INTERVAL ≤ s1.spawn_timer ∧ 0 < s1.monsters_to_spawn then
    { s1 with store := Function.update s1.store s1.next_id new_monster
              active_monsters := s1.active_monsters ++ [s1.next_id]
              next_id := s1.next_id + 1
              monsters_to_spawn := s1.monsters_to_spawn - 1
              spawn_timer := 0 }
  else s1

/-- The monster-update loop of `WaveManager.update` (lines 96–104): advance
every active monster with `mstep` (standing for `Monster.update`, not under
`src/`), record its new state, and collect those no longer active.  Returns
the updated state and `monsters_to_remove`. -/
def WaveState.monsters_step (s : WaveState) (mstep : Monster → Monster × Bool) :
    WaveState × List ℕ :=
  s.active_monsters.foldl
    (fun acc mid =>
      let r := mstep (acc.1.store mid)
      ({ acc.1 with store := Function.update acc.1.store mid r.1 },
       if r.2 then acc.2 else acc.2 ++ [mid]))
    (s, [])

/-- The removal loop of `WaveManager.update` (lines 106–117): for each monster
to remove that is still in `active_monsters`, run the fallback death handling
(when it died without reaching the castle) and then remove it from the active
list (`list.remove` drops the first occurrence). -/
def WaveState.removal_step (s : WaveState) (rm : ResourceManager)
    (to_remove : List ℕ) : WaveState × ResourceManager :=
  to_remove.foldl
    (fun acc mid =>
      if mid ∈ acc.1.active_monsters then
        let handled :=
          if (acc.1.store mid).is_dead ∧ ¬ (acc.1.store mid).reached_castle then
            acc.1.handle_monster_death mid acc.2
          else acc
        ({ handled.1 with
            active_monsters := handled.1.active_monsters.erase mid }, handled.2)
      else acc)
    (s, rm)

/-- The wave-completion check of `WaveManager.update` (lines 119–123). -/
def WaveState.completion_step (s : WaveState) : WaveState :=
  if s.active_monsters.length = 0 ∧ s.monsters_to_spawn = 0 then
    { s with wave_active := false
             wave_completed := true
             wave_complete_animation_timer := 2 }
  else s

/-- `WaveManager.update(dt, castle)` (wave_manager.py lines 72–123): timers,
then — only while a wave is active — spawning, monster updates, removal with
fallback death handling (through the global game instance's resource
manager), and the completion check. -/
def WaveState.update (s : WaveState) (dt : ℚ) (new_monster : Monster)
    (mstep : Monster → Monster × Bool) (rm : ResourceManager) :
    WaveState × ResourceManager :=
  let s1 := s.update_anim_timers dt
  if s1.wave_active then
    let s2 := s1.spawn_step dt new_monster
    let sr := s2.monsters_step mstep
    let sm := sr.1.removal_step rm sr.2
    (sm.1.completion_step, sm.2)
  else (s1, rm)

/- ----------------------------------------------------------------
   Game state — game.py, states/game_over_state.py,
   states/tower_placement_state.py
   ---------------------------------------------------------------- -/

/-- Modelled from the spec (§3 Objective, §4.4): `features/castle.py` is not
under `src/`; only the fields the in-src code reads and writes are
modelled. -/
structure Castle where
  health : ℚ
  max_health : ℚ
  damage_reduction : ℚ
  health_regen : ℚ
  level : ℕ
deriving DecidableEq

/-- The slice of the `Game` object the claims touch: the castle, the wave
scheduler (with its monster store), the ledger, the placed towers, and the
name of the active state in the state machine. -/
structure GameS where
  castle : Castle
  waves : WaveState
  rm : ResourceManager
  towers : List Tower
  current_state : String

/-- The wave-state reset shared by `GameOverState.continue_game` (lines
80–86), `Game.set_wave` (game.py lines 265–279): set the wave counter, clear
the active monsters, drop the active flag, raise the completed flag, zero the
spawn quota. -/
def WaveState.reset_to_wave (s : WaveState) (w : ℕ) : WaveState :=
  { s with current_wave := w
           active_monsters := []
           wave_active := false
           wave_completed := true
           monsters_to_spawn := 0 }

/-- The wave-state part of `SaveManager.load_game` (save_system.py lines
92–96): like the other resets but it does NOT zero `monsters_to_spawn`. -/
def WaveState.load_reset (s : WaveState) (w : ℕ) : WaveState :=
  { s with current_wave := w
           active_monsters := []
           wave_active := false
           wave_completed := true }

/-- `Game.set_wave(wave_number)` (game.py lines 265–279). -/
def GameS.set_wave (g : GameS) (w : ℕ) : GameS :=
  { g with waves := g.waves.reset_to_wave w }

/-- `GameOverState`'s mutable fields (game_over_state.py `__init__`). -/
structure GameOverState where
  time_in_state : ℚ
  auto_continue_time : ℚ
  setback_wave : ℕ
  current_wave : ℕ
deriving DecidableEq

/-- `GameOverState.enter` (game_over_state.py lines 26–37): snapshot the wave
reached and compute the setback wave — 10 waves back (floored at 1) from wave
11 on, otherwise wave 1. -/
def GameOverState.enter (g : GameS) : GameOverState :=
  { time_in_state := 0
    auto_continue_time := 15
    current_wave := g.waves.current_wave
    setback_wave :=
      if 11 ≤ g.waves.current_wave then max 1 (g.waves.current_wave - 10)
      else 1 }

/-- `GameOverState.continue_game` (game_over_state.py lines 75–90): restore
the castle to full health, set the wave counter to `setback_wave - 1` (the
comment in the source: "-1 because starting next wave increments"), clear
the wave state, and return to the playing state. -/
def GameOverState.continue_game (go : GameOverState) (g : GameS) : GameS :=
  { g with castle := { g.castle with health := g.castle.max_health }
           waves := g.waves.reset_to_wave (go.setback_wave - 1)
           current_state := "playing" }

/-- `GameOverState.update(dt)` (game_over_state.py lines 61–73): accumulate
time in state; at the auto-continue threshold, continue the game. -/
def GameOverState.update (go : GameOverState) (g : GameS) (dt : ℚ) :
    GameOverState × GameS :=
  let go1 := { go with time_in_state := go.time_in_state + dt }
  if go1.auto_continue_time ≤ go1.time_in_state then
    (go1, go1.continue_game g)
  else (go1, g)

/-- The continuous-wave auto-advance at the end of `PlayingState.update`
(playing_state.py lines 168–171): when continuous mode is on and the current
wave is completed and none is active, start the next wave. -/
def WaveState.auto_advance (s : WaveState) : WaveState :=
  if s.continuous_wave ∧ s.wave_completed ∧ ¬ s.wave_active then
    s.start_next_wave.1
  else s

/-- `pygame.Rect` reduced to what the placement collision checks read. -/
structure PRect where
  x : ℚ
  y : ℚ
  w : ℚ
  h : ℚ
deriving DecidableEq

/-- `Rect.colliderect`: true when the interiors overlap (pygame treats
shared edges as non-colliding). -/
def PRect.colliderect (r1 r2 : PRect) : Bool :=
  decide (r1.x < r2.x + r2.w) && decide (r2.x < r1.x + r1.w) &&
  decide (r1.y < r2.y + r2.h) && decide (r2.y < r1.y + r1.h)

/-- The tower footprint `Game.is_valid_tower_position` builds (game.py lines
232–240): a reference-size (40, 40) box scaled and centred on the position
(`//` is modelled as exact division — the scaled sizes 96 and 72 are even). -/
def tower_rect_at (pos : ℚ × ℚ) : PRect :=
  { x := pos.1 - scale_value 40 / 2
    y := pos.2 - (40 * (1080 / 600)) / 2
    w := scale_value 40
    h := 40 * (1080 / 600) }

/-- `Game.is_valid_tower_position(position)` (game.py lines 223–257):
position must lie within the castle boundary (`castle.is_position_within_castle`
— castle.py is not under `src/`, so the boundary test is a parameter
`within_castle`), and the tower footprint must not collide with a building or
an existing tower. -/
def GameS.is_valid_tower_position (within_castle : ℚ × ℚ → Bool)
    (building_rects : List PRect) (g : GameS) (pos : ℚ × ℚ) : Bool :=
  let trect := tower_rect_at pos
  if ¬ within_castle pos then false
  else if building_rects.any fun b => trect.colliderect b then false
  else if g.towers.any fun tw => trect.colliderect (tower_rect_at tw.position) then false
  else true

/-- `TowerPlacementState.place_tower(position)` (tower_placement_state.py
lines 174–203): with a pending type, check the position, then check-and-spend
the variant's full cost atomically, then create the tower through the factory
and append it.  The factory `ValueError` (reachable only for a pending type
outside the four known variants) is surfaced as `.error`, mirroring the
uncaught exception. -/
def place_tower (within_castle : ℚ × ℚ → Bool) (building_rects : List PRect)
    (tower_type : Option String) (g : GameS) (pos : ℚ × ℚ) :
    Except String (GameS × Bool) :=
  match tower_type with
  | none => .ok (g, false)
  | some ty =>
    if ¬ GameS.is_valid_tower_position within_castle building_rects g pos then
      .ok (g, false)
    else
      let cost := tower_placement_cost ty
      let mc := tower_monster_coin_cost_placement ty
      let sp := spend_resources_for_tower g.rm cost mc
      if sp.2 then
        match TowerFactory.create_tower ty pos with
        | .ok tw => .ok ({ g with rm := sp.1, towers := g.towers ++ [tw] }, true)
        | .error e => .error e
      else .ok ({ g with rm := sp.1 }, false)

/-- Cancelling placement (right click / Escape, tower_placement_state.py
lines 81–94): only a state change back to "playing"; `exit()` clears the
pending type and preview.  The game's towers and ledger are untouched. -/
def cancel_placement (g : GameS) : (Option String) × GameS :=
  (none, { g with current_state := "playing" })

/- ----------------------------------------------------------------
   Spec-side definitions (written from the specification's words, for
   refinement-style comparison with the embedded code)
   ---------------------------------------------------------------- -/

/-- The spawn quota exactly as the specification states it: 1 on every 10th
wave, otherwise `floor(baseCount + waveNumber × 0.5 × growthFactor^(waveNumber
div 10))` with `baseCount = 5` and `growthFactor = 1.5`. -/
def spec_spawn_quota (w : ℕ) : ℕ :=
  if w % 10 = 0 then 1
  else ⌊(5 : ℚ) + (w : ℚ) * (1/2) * (3/2 : ℚ) ^ (w / 10)⌋.toNat

/- ----------------------------------------------------------------
   Ledger helper lemmas
   ---------------------------------------------------------------- -/

/-- Total amount a cost map charges against one resource kind. -/
def cost_amount (cost : List (String × ℤ)) (k : String) : ℤ :=
  (cost.map fun p => if p.1 = k then p.2 else 0).sum

theorem get_resource_add (rm : ResourceManager) (k k' : String) (a : ℤ) :
    get_resource (add_resource rm k a) k' =
      get_resource rm k' + (if k = k' then a else 0) := by
  induction rm with
  | nil =>
    simp only [add_resource, get_resource]
    by_cases h : k = k' <;> simp [h]
  | cons hd tl ih =>
    obtain ⟨k0, v0⟩ := hd
    simp only [add_resource]
    by_cases h0 : k0 = k
    · subst h0
      simp only [if_pos rfl, get_resource]
      by_cases h1 : k0 = k' <;> simp [h1]
    · simp only [if_neg h0, get_resource]
      by_cases h1 : k0 = k'
      · subst h1
        have : ¬ k = k0 := fun h => h0 h.symm
        simp [this]
      · simp [h1, ih]

theorem get_resource_spend_fold (cost : List (String × ℤ))
    (rm : ResourceManager) (k : String) :
    get_resource (cost.foldl (fun r p => add_resource r p.1 (-p.2)) rm) k =
      get_resource rm k - cost_amount cost k := by
  induction cost generalizing rm with
  | nil => simp [cost_amount]
  | cons hd tl ih =>
    simp only [List.foldl_cons, ih, cost_amount, List.map_cons, List.sum_cons,
      get_resource_add]
    by_cases h : hd.1 = k
    · simp [h, cost_amount]; ring
    · simp [h, cost_amount]

/- ----------------------------------------------------------------
   Wave-state helper lemmas
   ---------------------------------------------------------------- -/

theorem anim_timer_fields (s : WaveState) (dt : ℚ) :
    (s.update_anim_timers dt).current_wave = s.current_wave ∧
    (s.update_anim_timers dt).active_monsters = s.active_monsters ∧
    (s.update_anim_timers dt).monsters_to_spawn = s.monsters_to_spawn ∧
    (s.update_anim_timers dt).wave_active = s.wave_active ∧
    (s.update_anim_timers dt).wave_completed = s.wave_completed := by
  unfold WaveState.update_anim_timers WaveState.tick_start_anim
    WaveState.tick_complete_anim
  split <;> split <;> exact ⟨rfl, rfl, rfl, rfl, rfl⟩

/- ----------------------------------------------------------------
   C5 — start_next_wave
   ---------------------------------------------------------------- -/

/-- C5: `startNextWave()` is a no-op returning `false` (state unchanged) when
a wave is already active; otherwise it returns `true`, increments the wave
number, and sets the spawn quota to 1 when the new wave number is divisible
by 10 and otherwise to `floor(5 + waveNumber × 0.5 × 1.5^(waveNumber div
10))` — the quota the specification states (`spec_spawn_quota`). -/
theorem start_next_wave_spec (s : WaveState) :
    (s.wave_active = true → s.start_next_wave = (s, false)) ∧
    (s.wave_active = false →
      s.start_next_wave.2 = true ∧
      s.start_next_wave.1.current_wave = s.current_wave + 1 ∧
      s.start_next_wave.1.monsters_to_spawn =
        spec_spawn_quota (s.current_wave + 1)) := by
  constructor
  · intro h
    simp [WaveState.start_next_wave, h]
  · intro h
    simp [WaveState.start_next_wave, h, spec_spawn_quota,
      WAVE_MONSTER_COUNT_BASE, WAVE_MONSTER_COUNT_MULTIPLIER]

/-- Witness for C5: both branches of `start_next_wave_spec` at concrete
states — an active wave is a no-op, and from the initial state wave 1 starts
with the spec's quota. -/
theorem start_next_wave_spec_witness :
    ({ WaveState.init with wave_active := true } : WaveState).start_next_wave =
      ({ WaveState.init with wave_active := true }, false) ∧
    (WaveState.init.start_next_wave.2 = true ∧
     WaveState.init.start_next_wave.1.current_wave = 0 + 1 ∧
     WaveState.init.start_next_wave.1.monsters_to_spawn =
       spec_spawn_quota (0 + 1)) :=
  ⟨(start_next_wave_spec _).1 rfl, (start_next_wave_spec _).2 rfl⟩

/- ----------------------------------------------------------------
   C2 / C10 — game-over recovery
   ---------------------------------------------------------------- -/

/-- A game that has just lost at wave 15 (castle down, wave counter 15). -/
def game_at_wave_15 : GameS :=
  { castle := { health := 0, max_health := 1000, damage_reduction := 1/10,
                health_regen := 1, level := 1 }
    waves := { WaveState.init with current_wave := 15 }
    rm := []
    towers := []
    current_state := "game_over" }

/-- C2 counterexample: triggering game-over at wave 15 and confirming
continue stores wave number 4, not the 5 the claim states (the stored counter
is `setback_wave - 1`; the next `start_next_wave` increment is what reaches
5). -/
theorem game_over_continue_stores_wave_four :
    ((GameOverState.enter game_at_wave_15).continue_game
        game_at_wave_15).waves.current_wave = 4 ∧ (4 : ℕ) ≠ 5 := by
  constructor
  · rfl
  · decide

/-- C2 (amended): confirming continue (or the auto-continue timeout) after a
game-over restores the objective's health to its max health and sets the
stored wave number to `setback_wave - 1` — 4 from wave 15, 0 from wave 4 —
so that the wave subsequently started by `start_next_wave` is the setback
wave itself: 5 from wave 15 (15 − 10), 1 from wave 4 (clamped). -/
theorem game_over_recovery_setback_spec (g : GameS) :
    let g' := (GameOverState.enter g).continue_game g
    g'.castle.health = g.castle.max_health ∧
    g'.waves.current_wave =
      (if 11 ≤ g.waves.current_wave then g.waves.current_wave - 11 else 0) ∧
    g'.waves.start_next_wave.2 = true ∧
    g'.waves.start_next_wave.1.current_wave =
      (if 11 ≤ g.waves.current_wave then g.waves.current_wave - 10 else 1) ∧
    ((GameOverState.enter g).update g 15).2 = g' := by
  intro g'
  have hwave : g'.waves.current_wave =
      (if 11 ≤ g.waves.current_wave then g.waves.current_wave - 11 else 0) := by
    show (GameOverState.enter g).setback_wave - 1 = _
    simp only [GameOverState.enter]
    split
    · next h => omega
    · next h => omega
  have hactive : g'.waves.wave_active = false := rfl
  refine ⟨rfl, hwave, ?_, ?_, ?_⟩
  · simp [WaveState.start_next_wave, hactive]
  · have : g'.waves.start_next_wave.1.current_wave = g'.waves.current_wave + 1 := by
      simp [WaveState.start_next_wave, hactive]
    rw [this, hwave]
    split
    · next h => omega
    · next h => omega
  · show ((GameOverState.enter g).update g 15).2 =
      (GameOverState.enter g).continue_game g
    simp [GameOverState.update, GameOverState.enter, GameOverState.continue_game]

/-- C10 counterexample: game-over recovery is an operation of the game state
machine that strictly decreases the current wave number — from 15 down to the
stored 4. -/
theorem wave_number_decreases_on_game_over_recovery :
    game_at_wave_15.waves.current_wave = 15 ∧
    ((GameOverState.enter game_at_wave_15).continue_game
        game_at_wave_15).waves.current_wave = 4 ∧ (4 : ℕ) < 15 := by
  refine ⟨rfl, rfl, by decide⟩

/-- C10 (amended): across the Wave Scheduler's own operations the wave number
never decreases — `start_next_wave` increases it, `update` preserves it, and
continuous-mode auto-advance never lowers it — but game-over recovery sets it
to `setback_wave - 1`, which is strictly below the wave reached (15 → 4):
the "setback" is precisely the one operation that decreases it. -/
theorem wave_number_monotone_outside_recovery :
    (∀ s : WaveState, s.current_wave ≤ s.start_next_wave.1.current_wave) ∧
    (∀ (s : WaveState) (dt : ℚ) (nm : Monster)
       (mstep : Monster → Monster × Bool) (rm : ResourceManager),
      (s.update dt nm mstep rm).1.current_wave = s.current_wave) ∧
    (∀ s : WaveState, s.current_wave ≤ s.auto_advance.current_wave) ∧
    (∀ g : GameS,
      ((GameOverState.enter g).continue_game g).waves.current_wave =
        (GameOverState.enter g).setback_wave - 1) := by
  have hstart : ∀ s : WaveState, s.current_wave ≤ s.start_next_wave.1.current_wave := by
    intro s
    simp only [WaveState.start_next_wave]
    split
    · simp
    · simp
  have hmon : ∀ (s : WaveState) (mstep : Monster → Monster × Bool),
      (s.monsters_step mstep).1.current_wave = s.current_wave := by
    intro s mstep
    simp only [WaveState.monsters_step]
    generalize hinit : (s, ([] : List ℕ)) = acc
    have : acc.1.current_wave = s.current_wave := by rw [← hinit]
    clear hinit
    induction s.active_monsters generalizing acc with
    | nil => simpa using this
    | cons hd tl ih =>
      simp only [List.foldl_cons]
      exact ih _ this
  have hrem : ∀ (s : WaveState) (rm : ResourceManager) (l : List ℕ),
      (s.removal_step rm l).1.current_wave = s.current_wave := by
    intro s rm l
    simp only [WaveState.removal_step]
    induction l generalizing s rm with
    | nil => rfl
    | cons hd tl ih =>
      simp only [List.foldl_cons]
      split
      · next h =>
        refine (ih _ _).trans ?_
        simp only [WaveState.handle_monster_death]
        split
        · rfl
        · rfl
      · exact ih s rm
  have h0 : ∀ (s' : WaveState) (dt : ℚ),
      (s'.update_anim_timers dt).current_wave = s'.current_wave :=
    fun s' dt => (anim_timer_fields s' dt).1
  refine ⟨hstart, ?_, ?_, ?_⟩
  · intro s dt nm mstep rm
    simp only [WaveState.update]
    split
    · next h =>
      have h1 : ∀ s' : WaveState, s'.completion_step.current_wave = s'.current_wave := by
        intro s'
        simp only [WaveState.completion_step]
        split
        · rfl
        · rfl
      have h2 : ∀ (s' : WaveState) (dt : ℚ) (nm : Monster),
          (WaveState.spawn_step s' dt nm).current_wave = s'.current_wave := by
        intro s' dt nm
        simp only [WaveState.spawn_step]
        split
        · rfl
        · rfl
      rw [h1, hrem, hmon, h2, h0]
    · simpa using h0 s dt
  · intro s
    simp only [WaveState.auto_advance]
    split
    · exact hstart s
    · exact le_refl _
  · intro g
    rfl

/- ----------------------------------------------------------------
   C1 — death-handler idempotence
   ---------------------------------------------------------------- -/

/-- A live Grunt-like monster (MONSTER_STATS["Grunt"]). -/
def live_grunt : Monster :=
  { position := (0, 0), health := 50, max_health := 50, is_dead := false,
    reached_castle := false, flying := false, is_boss := false, loot := [] }

/-- A wave state mid-wave with that single live monster active (id 0). -/
def wave_with_live_grunt : WaveState :=
  { WaveState.init with
      active_monsters := [0]
      wave_active := true
      wave_completed := false
      store := fun _ => live_grunt
      next_id := 1 }

/-- C1: `handle_monster_death` is NOT idempotent.  Called twice on the same
live adversary (id 0) while it is still in `active_monsters` — exactly the
two-call-site situation the claim describes, since the handler itself never
removes the monster from the list — the first call sets the dead flag and
credits 1 Monster Coin, and the second call, despite the dead flag being set,
credits a second Monster Coin: the guard tests list membership, never the
dead flag. -/
theorem handle_monster_death_double_credit :
    ((wave_with_live_grunt.handle_monster_death 0 []).1.store 0).is_dead = true ∧
    get_resource (wave_with_live_grunt.handle_monster_death 0 []).2
      "Monster Coins" = 1 ∧
    get_resource
      (((wave_with_live_grunt.handle_monster_death 0 []).1.handle_monster_death 0
          (wave_with_live_grunt.handle_monster_death 0 []).2)).2
      "Monster Coins" = 2 := by
  refine ⟨rfl, rfl, rfl⟩

/- ----------------------------------------------------------------
   C7 — save/load round trip
   ---------------------------------------------------------------- -/

/-- A freshly placed Sniper defense at (100, 100). -/
def sniper_at_100 : Tower := Tower.mk' (100, 100) "Sniper"

/-- C7: the save round trip does not preserve derived stats.  `serialize_tower`
records the class name `"SniperTower"`, which the factory does not recognise
(it accepts only `"Archer"`, `"Sniper"`, `"Splash"`, `"Frozen"`), so
`deserialize_tower` always lands in its unknown-type fallback and returns a
fresh default Archer tower: the reloaded tower has damage 10 where the
original Sniper had damage 50. -/
theorem tower_save_roundtrip_falls_back_to_archer :
    (SaveManager.serialize_tower sniper_at_100).ttype = "SniperTower" ∧
    TowerFactory.create_tower "SniperTower" (100, 100) =
      .error "Unknown tower type: SniperTower" ∧
    SaveManager.deserialize_tower (SaveManager.serialize_tower sniper_at_100) =
      Tower.mk' (100, 100) "Archer" ∧
    (SaveManager.deserialize_tower
        (SaveManager.serialize_tower sniper_at_100)).damage = 10 ∧
    sniper_at_100.damage = 50 := by
  refine ⟨rfl, rfl, rfl, ?_, ?_⟩ <;> decide

/- ----------------------------------------------------------------
   C3 — upgrade purchases
   ---------------------------------------------------------------- -/

/-- What the claim asserts of one upgrade call: success iff the in-kind cost
and the Monster Coin cost are simultaneously affordable; on success the
ledger loses exactly the cost amount per kind plus the Monster Coin cost,
each once; on failure the ledger is unchanged. -/
def upgrade_result_spec (rm : ResourceManager) (cost : List (String × ℤ))
    (mc : ℤ) (res : Tower × ResourceManager × Bool) : Prop :=
  (res.2.2 = true ↔
    (has_resources rm cost = true ∧ mc ≤ get_resource rm "Monster Coins")) ∧
  (res.2.2 = true → ∀ k, get_resource res.2.1 k =
    get_resource rm k - cost_amount cost k -
      (if k = "Monster Coins" then mc else 0)) ∧
  (res.2.2 = false → res.2.1 = rm)

theorem upgrade_template_spec (rm : ResourceManager) (cost : List (String × ℤ))
    (mc : ℤ) (tfail tsucc : Tower)
    (hkey : cost_amount cost "Monster Coins" = 0) :
    upgrade_result_spec rm cost mc
      (if ¬ (has_resources rm cost) ∨ get_resource rm "Monster Coins" < mc then
        (tfail, rm, false)
      else
        let sp := spend_resources rm cost
        if sp.2 then
          let rm2 := (spend_resource sp.1 "Monster Coins" mc).1
          (tsucc, rm2, true)
        else (tfail, sp.1, false)) := by
  unfold upgrade_result_spec
  split
  · next h =>
    refine ⟨?_, ?_, ?_⟩
    · constructor
      · intro hh; exact absurd hh (by simp)
      · rintro ⟨h1, h2⟩
        rcases h with h | h
        · exact absurd h1 h
        · omega
    · intro hh; exact absurd hh (by simp)
    · intro _; rfl
  · next h =>
    push_neg at h
    obtain ⟨h1, h2⟩ := h
    have h1' : has_resources rm cost = true := by
      revert h1; simp
    have hsp : spend_resources rm cost =
        (cost.foldl (fun r p => add_resource r p.1 (-p.2)) rm, true) := by
      simp [spend_resources, h1']
    simp only [hsp]
    refine ⟨by simp [h1', h2], ?_, ?_⟩
    · intro _ k
      have hcond2 : mc ≤ get_resource rm "Monster Coins" -
          cost_amount cost "Monster Coins" := by
        rw [hkey]; omega
      simp only [spend_resource, get_resource_spend_fold, if_pos hcond2,
        get_resource_add]
      by_cases hk : k = "Monster Coins"
      · subst hk
        simp [get_resource_add, get_resource_spend_fold]
        omega
      · have h' : ¬ ("Monster Coins" : String) = k := fun hh => hk hh.symm
        simp [get_resource_add, get_resource_spend_fold, if_neg h', if_neg hk]
    · intro hh; exact absurd hh (by simp)

/-- C3: for every Defense and every one of the three upgrade paths (damage,
attack speed, range), the upgrade purchase succeeds if and only if the
path's in-kind resource cost and its independent Monster Coin cost are both
simultaneously affordable; on success exactly those two costs are each
deducted from the ledger once, and on failure the ledger is left completely
unchanged. -/
theorem defense_upgrade_purchase_atomic (t : Tower) (rm : ResourceManager) :
    upgrade_result_spec rm t.calculate_damage_upgrade_cost
      t.calculate_damage_upgrade_monster_coin_cost (t.upgrade_damage rm) ∧
    upgrade_result_spec rm t.calculate_attack_speed_upgrade_cost
      t.calculate_attack_speed_upgrade_monster_coin_cost
      (t.upgrade_attack_speed rm) ∧
    upgrade_result_spec rm t.calculate_range_upgrade_cost
      t.calculate_range_upgrade_monster_coin_cost (t.upgrade_range rm) := by
  have hkey : ∀ lv : ℕ, cost_amount
      ((tower_config_cost t.tower_type).map fun p =>
        (p.1, ((p.2 : ℚ) * TOWER_UPGRADE_COST_MULTIPLIER ^ lv).floor))
      "Monster Coins" = 0 := by
    intro lv
    unfold tower_config_cost
    split_ifs <;> simp [cost_amount]
  exact ⟨upgrade_template_spec rm _ _ t _ (hkey _),
         upgrade_template_spec rm _ _ t _ (hkey _),
         upgrade_template_spec rm _ _ t _ (hkey _)⟩

/-- Witness for C3: a fresh Archer tower with the initial ledger (100 Stone,
50 Monster Coins) can buy its first damage upgrade, and the theorem reports
the exact post-purchase balances: 80 Stone and 35 Monster Coins. -/
theorem defense_upgrade_purchase_atomic_witness :
    ((Tower.mk' (0, 0) "Archer").upgrade_damage
        [("Stone", 100), ("Monster Coins", 50)]).2.2 = true ∧
    get_resource ((Tower.mk' (0, 0) "Archer").upgrade_damage
        [("Stone", 100), ("Monster Coins", 50)]).2.1 "Stone" = 80 ∧
    get_resource ((Tower.mk' (0, 0) "Archer").upgrade_damage
        [("Stone", 100), ("Monster Coins", 50)]).2.1 "Monster Coins" = 35 := by
  have h := defense_upgrade_purchase_atomic (Tower.mk' (0, 0) "Archer")
    [("Stone", 100), ("Monster Coins", 50)]
  have hcost : (Tower.mk' (0, 0) "Archer").calculate_damage_upgrade_cost =
      [("Stone", 20)] := by
    simp [Tower.calculate_damage_upgrade_cost, Tower.mk', tower_config_cost,
      TOWER_UPGRADE_COST_MULTIPLIER]
  have hmc : (Tower.mk' (0, 0) "Archer").calculate_damage_upgrade_monster_coin_cost
      = 15 := by
    simp [Tower.calculate_damage_upgrade_monster_coin_cost, Tower.mk',
      tower_monster_coin_cost, TOWER_MONSTER_COIN_UPGRADE_MULTIPLIER]
  have hs : ((Tower.mk' (0, 0) "Archer").upgrade_damage
      [("Stone", 100), ("Monster Coins", 50)]).2.2 = true :=
    h.1.1.mpr ⟨by rw [hcost]; decide, by rw [hmc]; decide⟩
  refine ⟨hs, ?_, ?_⟩
  · rw [h.1.2.1 hs "Stone", hcost]; decide
  · rw [h.1.2.1 hs "Monster Coins", hcost, hmc]; decide

/- ----------------------------------------------------------------
   C6 — wave flags invariant
   ---------------------------------------------------------------- -/

theorem handle_monster_death_fields (s : WaveState) (mid : ℕ)
    (rm : ResourceManager) :
    (s.handle_monster_death mid rm).1.current_wave = s.current_wave ∧
    (s.handle_monster_death mid rm).1.active_monsters = s.active_monsters ∧
    (s.handle_monster_death mid rm).1.monsters_to_spawn = s.monsters_to_spawn ∧
    (s.handle_monster_death mid rm).1.wave_active = s.wave_active ∧
    (s.handle_monster_death mid rm).1.wave_completed = s.wave_completed := by
  unfold WaveState.handle_monster_death
  split <;> exact ⟨rfl, rfl, rfl, rfl, rfl⟩

theorem spawn_step_flags (s : WaveState) (dt : ℚ) (nm : Monster) :
    (s.spawn_step dt nm).current_wave = s.current_wave ∧
    (s.spawn_step dt nm).wave_active = s.wave_active ∧
    (s.spawn_step dt nm).wave_completed = s.wave_completed := by
  simp only [WaveState.spawn_step]
  split <;> exact ⟨rfl, rfl, rfl⟩

theorem monsters_step_fields (s : WaveState)
    (mstep : Monster → Monster × Bool) :
    (s.monsters_step mstep).1.current_wave = s.current_wave ∧
    (s.monsters_step mstep).1.active_monsters = s.active_monsters ∧
    (s.monsters_step mstep).1.monsters_to_spawn = s.monsters_to_spawn ∧
    (s.monsters_step mstep).1.wave_active = s.wave_active ∧
    (s.monsters_step mstep).1.wave_completed = s.wave_completed := by
  suffices h : ∀ (l : List ℕ) (acc : WaveState × List ℕ),
      (l.foldl (fun acc mid =>
        let r := mstep (acc.1.store mid)
        ({ acc.1 with store := Function.update acc.1.store mid r.1 },
         if r.2 then acc.2 else acc.2 ++ [mid])) acc).1.current_wave =
          acc.1.current_wave ∧
      (l.foldl (fun acc mid =>
        let r := mstep (acc.1.store mid)
        ({ acc.1 with store := Function.update acc.1.store mid r.1 },
         if r.2 then acc.2 else acc.2 ++ [mid])) acc).1.active_monsters =
          acc.1.active_monsters ∧
      (l.foldl (fun acc mid =>
        let r := mstep (acc.1.store mid)
        ({ acc.1 with store := Function.update acc.1.store mid r.1 },
         if r.2 then acc.2 else acc.2 ++ [mid])) acc).1.monsters_to_spawn =
          acc.1.monsters_to_spawn ∧
      (l.foldl (fun acc mid =>
        let r := mstep (acc.1.store mid)
        ({ acc.1 with store := Function.update acc.1.store mid r.1 },
         if r.2 then acc.2 else acc.2 ++ [mid])) acc).1.wave_active =
          acc.1.wave_active ∧
      (l.foldl (fun acc mid =>
        let r := mstep (acc.1.store mid)
        ({ acc.1 with store := Function.update acc.1.store mid r.1 },
         if r.2 then acc.2 else acc.2 ++ [mid])) acc).1.wave_completed =
          acc.1.wave_completed by
    exact h s.active_monsters (s, [])
  intro l
  induction l with
  | nil => intro acc; exact ⟨rfl, rfl, rfl, rfl, rfl⟩
  | cons hd tl ih =>
    intro acc
    simp only [List.foldl_cons]
    exact ih _

theorem removal_step_fields (s : WaveState) (rm : ResourceManager)
    (to_remove : List ℕ) :
    (s.removal_step rm to_remove).1.current_wave = s.current_wave ∧
    (s.removal_step rm to_remove).1.monsters_to_spawn = s.monsters_to_spawn ∧
    (s.removal_step rm to_remove).1.wave_active = s.wave_active ∧
    (s.removal_step rm to_remove).1.wave_completed = s.wave_completed := by
  suffices h : ∀ (l : List ℕ) (acc : WaveState × ResourceManager),
      (l.foldl (fun acc mid =>
        if mid ∈ acc.1.active_monsters then
          let handled :=
            if (acc.1.store mid).is_dead ∧ ¬ (acc.1.store mid).reached_castle then
              acc.1.handle_monster_death mid acc.2
            else acc
          ({ handled.1 with
              active_monsters := handled.1.active_monsters.erase mid }, handled.2)
        else acc) acc).1.current_wave = acc.1.current_wave ∧
      (l.foldl (fun acc mid =>
        if mid ∈ acc.1.active_monsters then
          let handled :=
            if (acc.1.store mid).is_dead ∧ ¬ (acc.1.store mid).reached_castle then
              acc.1.handle_monster_death mid acc.2
            else acc
          ({ handled.1 with
              active_monsters := handled.1.active_monsters.erase mid }, handled.2)
        else acc) acc).1.monsters_to_spawn = acc.1.monsters_to_spawn ∧
      (l.foldl (fun acc mid =>
        if mid ∈ acc.1.active_monsters then
          let handled :=
            if (acc.1.store mid).is_dead ∧ ¬ (acc.1.store mid).reached_castle then
              acc.1.handle_monster_death mid acc.2
            else acc
          ({ handled.1 with
              active_monsters := handled.1.active_monsters.erase mid }, handled.2)
        else acc) acc).1.wave_active = acc.1.wave_active ∧
      (l.foldl (fun acc mid =>
        if mid ∈ acc.1.active_monsters then
          let handled :=
            if (acc.1.store mid).is_dead ∧ ¬ (acc.1.store mid).reached_castle then
              acc.1.handle_monster_death mid acc.2
            else acc
          ({ handled.1 with
              active_monsters := handled.1.active_monsters.erase mid }, handled.2)
        else acc) acc).1.wave_completed = acc.1.wave_completed by
    exact h to_remove (s, rm)
  intro l
  induction l with
  | nil => intro acc; exact ⟨rfl, rfl, rfl, rfl⟩
  | cons hd tl ih =>
    intro acc
    simp only [List.foldl_cons]
    split
    · next hmem =>
      by_cases hc : (acc.1.store hd).is_dead = true ∧
          ¬ ((acc.1.store hd).reached_castle = true)
      · simp only [if_pos hc]
        obtain ⟨g1, _, g3, g4, g5⟩ :=
          handle_monster_death_fields acc.1 hd acc.2
        obtain ⟨i1, i2, i3, i4⟩ := ih _
        exact ⟨i1.trans g1, i2.trans g3, i3.trans g4, i4.trans g5⟩
      · simp only [if_neg hc]
        exact ih _
    · next hmem => exact ih _

/-- The fields of `update`'s state just before the completion check: the wave
flags pass through the spawn, monster-update, and removal phases unchanged. -/
theorem update_inner_fields (s : WaveState) (dt : ℚ) (nm : Monster)
    (mstep : Monster → Monster × Bool) (rm : ResourceManager) :
    ((((s.update_anim_timers dt).spawn_step dt nm).monsters_step mstep).1.removal_step
        rm (((s.update_anim_timers dt).spawn_step dt nm).monsters_step
          mstep).2).1.wave_active = s.wave_active ∧
    ((((s.update_anim_timers dt).spawn_step dt nm).monsters_step mstep).1.removal_step
        rm (((s.update_anim_timers dt).spawn_step dt nm).monsters_step
          mstep).2).1.wave_completed = s.wave_completed := by
  have ha := anim_timer_fields s dt
  have hsp := spawn_step_flags (s.update_anim_timers dt) dt nm
  have hms := monsters_step_fields ((s.update_anim_timers dt).spawn_step dt nm) mstep
  have hrm := removal_step_fields
    ((((s.update_anim_timers dt).spawn_step dt nm).monsters_step mstep)).1 rm
    ((((s.update_anim_timers dt).spawn_step dt nm).monsters_step mstep)).2
  constructor
  · rw [hrm.2.2.1, hms.2.2.2.1, hsp.2.1, ha.2.2.2.1]
  · rw [hrm.2.2.2, hms.2.2.2.2, hsp.2.2, ha.2.2.2.2]

/-- Never-both-flags is preserved by one `update` call. -/
theorem update_flags_ok (s : WaveState) (dt : ℚ) (nm : Monster)
    (mstep : Monster → Monster × Bool) (rm : ResourceManager)
    (h : ¬(s.wave_active = true ∧ s.wave_completed = true)) :
    ¬((s.update dt nm mstep rm).1.wave_active = true ∧
      (s.update dt nm mstep rm).1.wave_completed = true) := by
  have ha := anim_timer_fields s dt
  have hin := update_inner_fields s dt nm mstep rm
  simp only [WaveState.update]
  split
  · next hact =>
    unfold WaveState.completion_step
    split
    · next hcc => simp
    · next hcc =>
      rintro ⟨hA, hC⟩
      exact h ⟨hin.1 ▸ hA, hin.2 ▸ hC⟩
  · next hact =>
    rintro ⟨hA, hC⟩
    exact h ⟨ha.2.2.2.1 ▸ hA, ha.2.2.2.2 ▸ hC⟩

/-- Never-both-flags is preserved by `start_next_wave`. -/
theorem start_flags_ok (s : WaveState)
    (h : ¬(s.wave_active = true ∧ s.wave_completed = true)) :
    ¬(s.start_next_wave.1.wave_active = true ∧
      s.start_next_wave.1.wave_completed = true) := by
  unfold WaveState.start_next_wave
  split
  · simp
  · exact h

/-- The wave-scheduler states reachable through the operations the game
performs on it: construction, wave starts, update ticks, continuous-mode
auto-advance, death handling, the game-over/set-wave reset, and the
load-game reset. -/
inductive WaveReachable : WaveState → Prop where
  | init : WaveReachable WaveState.init
  | start (s : WaveState) : WaveReachable s → WaveReachable s.start_next_wave.1
  | step (s : WaveState) (dt : ℚ) (nm : Monster)
      (mstep : Monster → Monster × Bool) (rm : ResourceManager) :
      WaveReachable s → WaveReachable (s.update dt nm mstep rm).1
  | auto (s : WaveState) : WaveReachable s → WaveReachable s.auto_advance
  | death (s : WaveState) (mid : ℕ) (rm : ResourceManager) :
      WaveReachable s → WaveReachable (s.handle_monster_death mid rm).1
  | reset (s : WaveState) (w : ℕ) : WaveReachable s →
      WaveReachable (s.reset_to_wave w)
  | load (s : WaveState) (w : ℕ) : WaveReachable s →
      WaveReachable (s.load_reset w)

/-- C6: in every reachable state of the wave scheduler, `wave_active` and
`wave_completed` are never simultaneously true; and an `update` call
transitions a wave to completed only when the remaining spawn quota is 0 and
the active-adversary set is empty. -/
theorem wave_flags_invariant :
    (∀ s : WaveState, WaveReachable s →
      ¬(s.wave_active = true ∧ s.wave_completed = true)) ∧
    (∀ (s : WaveState) (dt : ℚ) (nm : Monster)
       (mstep : Monster → Monster × Bool) (rm : ResourceManager),
      s.wave_active = true → s.wave_completed = false →
      (s.update dt nm mstep rm).1.wave_completed = true →
      (s.update dt nm mstep rm).1.monsters_to_spawn = 0 ∧
      (s.update dt nm mstep rm).1.active_monsters = []) := by
  constructor
  · intro s hr
    induction hr with
    | init => simp [WaveState.init]
    | start s hs ih => exact start_flags_ok s ih
    | step s dt nm mstep rm hs ih => exact update_flags_ok s dt nm mstep rm ih
    | auto s hs ih =>
      unfold WaveState.auto_advance
      split
      · exact start_flags_ok s ih
      · exact ih
    | death s mid rm hs ih =>
      have hf := handle_monster_death_fields s mid rm
      rw [hf.2.2.2.1, hf.2.2.2.2]
      exact ih
    | reset s w hs ih => simp [WaveState.reset_to_wave]
    | load s w hs ih => simp [WaveState.load_reset]
  · intro s dt nm mstep rm hact hncomp hcomp
    have ha := anim_timer_fields s dt
    have hin := update_inner_fields s dt nm mstep rm
    have hact1 : (s.update_anim_timers dt).wave_active = true := by
      rw [ha.2.2.2.1]; exact hact
    simp only [WaveState.update, if_pos hact1] at hcomp ⊢
    unfold WaveState.completion_step at hcomp ⊢
    split at hcomp
    · next hcc =>
      rw [if_pos hcc]
      exact ⟨hcc.2, List.length_eq_zero.mp hcc.1⟩
    · next hcc =>
      rw [hin.2, hncomp] at hcomp
      exact absurd hcomp (by simp)

/-- Witness for C6: the initial state is reachable and satisfies the flag
invariant; and a concrete mid-wave state with one active monster, zero
remaining quota, and a monster step that reports the monster inactive is
completed by `update` with quota 0 and an empty active set. -/
theorem wave_flags_invariant_witness :
    (¬(WaveState.init.wave_active = true ∧
       WaveState.init.wave_completed = true)) ∧
    ((wave_with_live_grunt.update 0 Monster.dummy (fun m => (m, false))
        []).1.monsters_to_spawn = 0 ∧
     (wave_with_live_grunt.update 0 Monster.dummy (fun m => (m, false))
        []).1.active_monsters = []) := by
  constructor
  · exact wave_flags_invariant.1 WaveState.init WaveReachable.init
  · refine wave_flags_invariant.2 wave_with_live_grunt 0 Monster.dummy
      (fun m => (m, false)) [] rfl rfl ?_
    norm_num [WaveState.update, WaveState.update_anim_timers,
      WaveState.tick_start_anim, WaveState.tick_complete_anim,
      WaveState.spawn_step, WaveState.monsters_step, WaveState.removal_step,
      WaveState.completion_step, WaveState.handle_monster_death,
      wave_with_live_grunt, WaveState.init, live_grunt,
      MONSTER_SPAWN_INTERVAL, add_resource, Function.update, List.erase]

/- ----------------------------------------------------------------
   C4 — modifier equips never compound
   ---------------------------------------------------------------- -/

/-- The derived (post-modifier) stats the claim talks about: damage, attack
speed, range, area radius, slow magnitude/duration, splash side-effect. -/
structure DerivedStats where
  damage : ℚ
  attack_speed : ℚ
  ref_range : ℚ
  range : ℚ
  ref_aoe_radius : ℚ
  aoe_radius : ℚ
  slow_effect : ℚ
  slow_duration : ℚ
  splash_damage_enabled : Bool
  splash_damage_radius : ℚ
deriving DecidableEq

def Tower.derived (t : Tower) : DerivedStats :=
  { damage := t.damage
    attack_speed := t.attack_speed
    ref_range := t.ref_range
    range := t.range
    ref_aoe_radius := t.ref_aoe_radius
    aoe_radius := t.aoe_radius
    slow_effect := t.slow_effect
    slow_duration := t.slow_duration
    splash_damage_enabled := t.splash_damage_enabled
    splash_damage_radius := t.splash_damage_radius }

/-- The base values derived stats are recomputed from, plus the variant tag
that selects which effects apply. -/
structure BaseStats where
  tower_type : String
  base_damage : ℚ
  base_attack_speed : ℚ
  base_range : ℚ
  base_ref_range : ℚ
  base_ref_aoe_radius : ℚ
  base_aoe_radius : ℚ
  base_slow_effect : ℚ
  base_slow_duration : ℚ
deriving DecidableEq

def Tower.base_block (t : Tower) : BaseStats :=
  { tower_type := t.tower_type
    base_damage := t.base_damage
    base_attack_speed := t.base_attack_speed
    base_range := t.base_range
    base_ref_range := t.base_ref_range
    base_ref_aoe_radius := t.base_ref_aoe_radius
    base_aoe_radius := t.base_aoe_radius
    base_slow_effect := t.base_slow_effect
    base_slow_duration := t.base_slow_duration }

theorem apply_one_item_pres (t : Tower) (i : Option String) :
    (t.apply_one_item i).tower_type = t.tower_type ∧
    (t.apply_one_item i).item_slots = t.item_slots ∧
    (t.apply_one_item i).base_block = t.base_block := by
  cases i with
  | none => exact ⟨rfl, rfl, rfl⟩
  | some it =>
    simp only [Tower.apply_one_item]
    split_ifs <;> exact ⟨rfl, rfl, rfl⟩

theorem apply_one_item_aoe (t : Tower) (i : Option String)
    (hty : ¬ t.tower_type = "Splash") :
    (t.apply_one_item i).ref_aoe_radius = t.ref_aoe_radius ∧
    (t.apply_one_item i).aoe_radius = t.aoe_radius := by
  cases i with
  | none => exact ⟨rfl, rfl⟩
  | some it =>
    simp only [Tower.apply_one_item]
    split_ifs <;> exact ⟨rfl, rfl⟩

theorem apply_one_item_slow (t : Tower) (i : Option String) :
    (t.apply_one_item i).slow_effect = t.slow_effect ∧
    (t.apply_one_item i).slow_duration = t.slow_duration := by
  cases i with
  | none => exact ⟨rfl, rfl⟩
  | some it =>
    simp only [Tower.apply_one_item]
    split_ifs <;> exact ⟨rfl, rfl⟩

/-- One item application reads only the variant tag and the derived stats it
updates: towers agreeing there stay in agreement. -/
theorem apply_one_item_agree {t1 t2 : Tower}
    (hty : t1.tower_type = t2.tower_type) (hd : t1.derived = t2.derived)
    (i : Option String) :
    (t1.apply_one_item i).derived = (t2.apply_one_item i).derived := by
  have hds := hd
  simp only [Tower.derived, DerivedStats.mk.injEq] at hds
  obtain ⟨e1, e2, e3, e4, e5, e6, e7, e8, e9, e10⟩ := hds
  cases i with
  | none => exact hd
  | some it =>
    simp only [Tower.apply_one_item]
    by_cases hUF : it = "Unstoppable Force"
    · rw [if_pos hUF, if_pos hUF, hty]
      split_ifs <;>
        simp [Tower.derived, e1, e2, e3, e4, e5, e6, e7, e8, e9, e10]
    · rw [if_neg hUF, if_neg hUF]
      exact hd

theorem foldl_items_pres (l : List (Option String)) (t : Tower) :
    (l.foldl Tower.apply_one_item t).tower_type = t.tower_type ∧
    (l.foldl Tower.apply_one_item t).item_slots = t.item_slots ∧
    (l.foldl Tower.apply_one_item t).base_block = t.base_block := by
  induction l generalizing t with
  | nil => exact ⟨rfl, rfl, rfl⟩
  | cons hd tl ih =>
    simp only [List.foldl_cons]
    obtain ⟨p1, p2, p3⟩ := apply_one_item_pres t hd
    obtain ⟨i1, i2, i3⟩ := ih (t.apply_one_item hd)
    exact ⟨i1.trans p1, i2.trans p2, i3.trans p3⟩

theorem foldl_items_aoe (l : List (Option String)) (t : Tower)
    (hty : ¬ t.tower_type = "Splash") :
    (l.foldl Tower.apply_one_item t).ref_aoe_radius = t.ref_aoe_radius ∧
    (l.foldl Tower.apply_one_item t).aoe_radius = t.aoe_radius := by
  induction l generalizing t with
  | nil => exact ⟨rfl, rfl⟩
  | cons hd tl ih =>
    simp only [List.foldl_cons]
    have hty' : ¬ (t.apply_one_item hd).tower_type = "Splash" := by
      rw [(apply_one_item_pres t hd).1]; exact hty
    obtain ⟨a1, a2⟩ := apply_one_item_aoe t hd hty
    obtain ⟨i1, i2⟩ := ih _ hty'
    exact ⟨i1.trans a1, i2.trans a2⟩

theorem foldl_items_slow (l : List (Option String)) (t : Tower) :
    (l.foldl Tower.apply_one_item t).slow_effect = t.slow_effect ∧
    (l.foldl Tower.apply_one_item t).slow_duration = t.slow_duration := by
  induction l generalizing t with
  | nil => exact ⟨rfl, rfl⟩
  | cons hd tl ih =>
    simp only [List.foldl_cons]
    obtain ⟨a1, a2⟩ := apply_one_item_slow t hd
    obtain ⟨i1, i2⟩ := ih (t.apply_one_item hd)
    exact ⟨i1.trans a1, i2.trans a2⟩

theorem foldl_items_agree (l : List (Option String)) {t1 t2 : Tower}
    (hty : t1.tower_type = t2.tower_type) (hd : t1.derived = t2.derived) :
    (l.foldl Tower.apply_one_item t1).derived =
      (l.foldl Tower.apply_one_item t2).derived := by
  induction l generalizing t1 t2 with
  | nil => exact hd
  | cons hd' tl ih =>
    simp only [List.foldl_cons]
    have hty' : (t1.apply_one_item hd').tower_type =
        (t2.apply_one_item hd').tower_type := by
      rw [(apply_one_item_pres t1 hd').1, (apply_one_item_pres t2 hd').1]
      exact hty
    exact ih hty' (apply_one_item_agree hty hd hd')

theorem reset_pres (t : Tower) :
    t.reset_derived.tower_type = t.tower_type ∧
    t.reset_derived.item_slots = t.item_slots ∧
    t.reset_derived.base_block = t.base_block := by
  simp only [Tower.reset_derived]
  split_ifs <;> exact ⟨rfl, rfl, rfl⟩

theorem reset_aoe (t : Tower) (hty : ¬ t.tower_type = "Splash") :
    t.reset_derived.ref_aoe_radius = t.ref_aoe_radius ∧
    t.reset_derived.aoe_radius = t.aoe_radius := by
  simp only [Tower.reset_derived]
  split_ifs <;> exact ⟨rfl, rfl⟩

theorem reset_slow (t : Tower) (hty : ¬ t.tower_type = "Frozen") :
    t.reset_derived.slow_effect = t.slow_effect ∧
    t.reset_derived.slow_duration = t.slow_duration := by
  simp only [Tower.reset_derived]
  split_ifs <;> exact ⟨rfl, rfl⟩

/-- The reset phase computes the derived stats from the base block alone —
plus, for the variant-specific stats it does not reset, the incoming values
of those stats. -/
theorem reset_agree {t1 t2 : Tower} (hty : t1.tower_type = t2.tower_type)
    (b1 : t1.base_damage = t2.base_damage)
    (b2 : t1.base_attack_speed = t2.base_attack_speed)
    (b3 : t1.base_range = t2.base_range)
    (b4 : t1.base_ref_range = t2.base_ref_range)
    (b5 : t1.base_ref_aoe_radius = t2.base_ref_aoe_radius)
    (b6 : t1.base_aoe_radius = t2.base_aoe_radius)
    (b7 : t1.base_slow_effect = t2.base_slow_effect)
    (b8 : t1.base_slow_duration = t2.base_slow_duration)
    (haoe : ¬ t1.tower_type = "Splash" →
      t1.ref_aoe_radius = t2.ref_aoe_radius ∧ t1.aoe_radius = t2.aoe_radius)
    (hslow : ¬ t1.tower_type = "Frozen" →
      t1.slow_effect = t2.slow_effect ∧ t1.slow_duration = t2.slow_duration) :
    t1.reset_derived.derived = t2.reset_derived.derived := by
  by_cases hS : t1.tower_type = "Splash"
  · have hS2 : t2.tower_type = "Splash" := by rw [← hty]; exact hS
    obtain ⟨sl1, sl2⟩ := hslow (by rw [hS]; decide)
    simp [Tower.reset_derived, hS, hS2, Tower.derived,
      b1, b2, b3, b4, b5, b6, sl1, sl2]
  · have hS2 : ¬ t2.tower_type = "Splash" := by rw [← hty]; exact hS
    obtain ⟨a1, a2⟩ := haoe hS
    by_cases hF : t1.tower_type = "Frozen"
    · have hF2 : t2.tower_type = "Frozen" := by rw [← hty]; exact hF
      simp [Tower.reset_derived, hS, hS2, hF, hF2, Tower.derived,
        b1, b2, b3, b4, b7, b8, a1, a2]
    · have hF2 : ¬ t2.tower_type = "Frozen" := by rw [← hty]; exact hF
      obtain ⟨sl1, sl2⟩ := hslow hF
      simp [Tower.reset_derived, hS, hS2, hF, hF2, Tower.derived,
        b1, b2, b3, b4, a1, a2, sl1, sl2]

theorem apply_item_effects_pres (t : Tower) :
    t.apply_item_effects.tower_type = t.tower_type ∧
    t.apply_item_effects.item_slots = t.item_slots ∧
    t.apply_item_effects.base_block = t.base_block := by
  simp only [Tower.apply_item_effects]
  obtain ⟨r1, r2, r3⟩ := reset_pres t
  split
  · exact ⟨r1, r2, r3⟩
  · obtain ⟨f1, f2, f3⟩ := foldl_items_pres t.reset_derived.item_slots
      { t.reset_derived with has_item_effects := true }
    exact ⟨f1.trans r1, f2.trans r2, f3.trans r3⟩

theorem apply_item_effects_aoe (t : Tower) (hty : ¬ t.tower_type = "Splash") :
    t.apply_item_effects.ref_aoe_radius = t.ref_aoe_radius ∧
    t.apply_item_effects.aoe_radius = t.aoe_radius := by
  simp only [Tower.apply_item_effects]
  obtain ⟨r1, r2⟩ := reset_aoe t hty
  split
  · exact ⟨r1, r2⟩
  · have hty' : ¬ ({ t.reset_derived with
        has_item_effects := true } : Tower).tower_type = "Splash" := by
      show ¬ t.reset_derived.tower_type = "Splash"
      rw [(reset_pres t).1]; exact hty
    obtain ⟨f1, f2⟩ := foldl_items_aoe t.reset_derived.item_slots
      { t.reset_derived with has_item_effects := true } hty'
    exact ⟨f1.trans r1, f2.trans r2⟩

theorem apply_item_effects_slow (t : Tower) (hty : ¬ t.tower_type = "Frozen") :
    t.apply_item_effects.slow_effect = t.slow_effect ∧
    t.apply_item_effects.slow_duration = t.slow_duration := by
  simp only [Tower.apply_item_effects]
  obtain ⟨r1, r2⟩ := reset_slow t hty
  split
  · exact ⟨r1, r2⟩
  · obtain ⟨f1, f2⟩ := foldl_items_slow t.reset_derived.item_slots
      { t.reset_derived with has_item_effects := true }
    exact ⟨f1.trans r1, f2.trans r2⟩

/-- The post-recomputation derived stats depend only on the base block, the
slots, and (for the variant-specific stats the reset leaves alone) the
incoming values of those stats. -/
theorem apply_item_effects_agree {t1 t2 : Tower}
    (hb : t1.base_block = t2.base_block) (hs : t1.item_slots = t2.item_slots)
    (haoe : ¬ t1.tower_type = "Splash" →
      t1.ref_aoe_radius = t2.ref_aoe_radius ∧ t1.aoe_radius = t2.aoe_radius)
    (hslow : ¬ t1.tower_type = "Frozen" →
      t1.slow_effect = t2.slow_effect ∧ t1.slow_duration = t2.slow_duration) :
    t1.apply_item_effects.derived = t2.apply_item_effects.derived := by
  have hbc := hb
  simp only [Tower.base_block, BaseStats.mk.injEq] at hbc
  obtain ⟨hty, b1, b2, b3, b4, b5, b6, b7, b8⟩ := hbc
  have hr := reset_agree hty b1 b2 b3 b4 b5 b6 b7 b8 haoe hslow
  have hp1 := reset_pres t1
  have hp2 := reset_pres t2
  have hslots : t1.reset_derived.item_slots = t2.reset_derived.item_slots := by
    rw [hp1.2.1, hp2.2.1]; exact hs
  simp only [Tower.apply_item_effects]
  rw [hslots]
  split
  · next h => exact hr
  · next h =>
    exact foldl_items_agree t2.reset_derived.item_slots
      ((hp1.1.trans hty).trans hp2.1.symm) hr

/-- An equip/unequip operation on a Defense, as the claim quantifies over
them: equip a modifier into a slot, or clear a slot. -/
inductive ItemOp where
  | equip (item : String) (slot_index : ℕ)
  | unequip (slot_index : ℕ)
deriving DecidableEq

/-- Run a sequence of equip/unequip operations (`add_item` / `remove_item`),
threading the ledger. -/
def Tower.apply_item_ops (t : Tower) (rm : ResourceManager) :
    List ItemOp → Tower × ResourceManager
  | [] => (t, rm)
  | op :: rest =>
    match op with
    | .equip item slot =>
      let r := t.add_item item slot rm
      Tower.apply_item_ops r.1 r.2.1 rest
    | .unequip slot =>
      let r := t.remove_item slot rm
      Tower.apply_item_ops r.1 r.2.1 rest

/-- The induction invariant for C4, relative to the starting tower `t0`: the
base block is untouched, the variant-specific stats of the other variants
are untouched, and the derived stats are exactly a fresh recomputation from
`t0`'s base values with the currently-equipped modifiers. -/
def ItemInv (t0 t' : Tower) : Prop :=
  t'.base_block = t0.base_block ∧
  (¬ t'.tower_type = "Splash" →
    t'.ref_aoe_radius = t0.ref_aoe_radius ∧ t'.aoe_radius = t0.aoe_radius) ∧
  (¬ t'.tower_type = "Frozen" →
    t'.slow_effect = t0.slow_effect ∧ t'.slow_duration = t0.slow_duration) ∧
  t'.derived = (Tower.apply_item_effects
    { t0 with item_slots := t'.item_slots }).derived

theorem ItemInv_effects (t0 t' : Tower) (h : ItemInv t0 t')
    (s' : List (Option String)) :
    ItemInv t0 (Tower.apply_item_effects { t' with item_slots := s' }) := by
  obtain ⟨hb, haoe, hslow, _⟩ := h
  have hp := apply_item_effects_pres { t' with item_slots := s' }
  refine ⟨hp.2.2.trans hb, ?_, ?_, ?_⟩
  · intro hS
    have hSA : ¬ ({ t' with item_slots := s' } : Tower).tower_type = "Splash" := by
      rw [← hp.1]; exact hS
    obtain ⟨e1, e2⟩ := apply_item_effects_aoe { t' with item_slots := s' } hSA
    obtain ⟨a1, a2⟩ := haoe hSA
    exact ⟨e1.trans a1, e2.trans a2⟩
  · intro hF
    have hFA : ¬ ({ t' with item_slots := s' } : Tower).tower_type = "Frozen" := by
      rw [← hp.1]; exact hF
    obtain ⟨e1, e2⟩ := apply_item_effects_slow { t' with item_slots := s' } hFA
    obtain ⟨a1, a2⟩ := hslow hFA
    exact ⟨e1.trans a1, e2.trans a2⟩
  · have hagree := @apply_item_effects_agree
      { t' with item_slots := s' }
      { t0 with item_slots := s' } hb rfl
      (fun hS => haoe hS) (fun hF => hslow hF)
    rw [hp.2.1]
    exact hagree

theorem ItemInv_add (t0 t' : Tower) (item : String) (slot : ℕ)
    (rm : ResourceManager) (h : ItemInv t0 t') :
    ItemInv t0 (t'.add_item item slot rm).1 := by
  unfold Tower.add_item
  split
  · exact ItemInv_effects t0 t' h _
  · exact h

theorem ItemInv_remove (t0 t' : Tower) (slot : ℕ) (rm : ResourceManager)
    (h : ItemInv t0 t') :
    ItemInv t0 (t'.remove_item slot rm).1 := by
  unfold Tower.remove_item
  split
  · split
    · exact ItemInv_effects t0 t' h _
    · exact h
  · exact h

theorem ItemInv_ops (t0 : Tower) (ops : List ItemOp) :
    ∀ (t' : Tower) (rm : ResourceManager), ItemInv t0 t' →
      ItemInv t0 (t'.apply_item_ops rm ops).1 := by
  induction ops with
  | nil => intro t' rm h; exact h
  | cons op rest ih =>
    intro t' rm h
    cases op with
    | equip item slot =>
      simp only [Tower.apply_item_ops]
      exact ih _ _ (ItemInv_add t0 t' item slot rm h)
    | unequip slot =>
      simp only [Tower.apply_item_ops]
      exact ih _ _ (ItemInv_remove t0 t' slot rm h)

/-- C4: for every Defense whose derived stats are consistent (a fixed point
of `apply_item_effects`, as every factory-fresh tower is) and every sequence
of modifier equip/unequip operations, the derived stats afterwards equal the
stats computed fresh from the original base values with each
currently-equipped modifier's effect applied exactly once — no modifier
bonus is ever compounded across repeated equips — and the base values are
untouched by equip operations. -/
theorem modifier_equips_never_compound (t : Tower) (rm : ResourceManager)
    (ops : List ItemOp) (h : t.apply_item_effects = t) :
    (t.apply_item_ops rm ops).1.derived =
      (Tower.apply_item_effects
        { t with item_slots := (t.apply_item_ops rm ops).1.item_slots }).derived ∧
    (t.apply_item_ops rm ops).1.base_block = t.base_block := by
  have hinv0 : ItemInv t t := by
    refine ⟨rfl, fun _ => ⟨rfl, rfl⟩, fun _ => ⟨rfl, rfl⟩, ?_⟩
    have he : ({ t with item_slots := t.item_slots } : Tower) = t := rfl
    rw [he, h]
  have hinv := ItemInv_ops t ops t rm hinv0
  exact ⟨hinv.2.2.2, hinv.1⟩

/-- Witness for C4: equipping "Unstoppable Force" twice into the same slot of
a fresh Archer tower — the compounding scenario — satisfies the theorem's
conclusion; the fixed-point hypothesis holds definitionally for the
factory-fresh tower. -/
theorem modifier_equips_never_compound_witness :
    ((Tower.mk' (0, 0) "Archer").apply_item_ops []
        [ItemOp.equip "Unstoppable Force" 0,
         ItemOp.equip "Unstoppable Force" 0]).1.derived =
      (Tower.apply_item_effects
        { Tower.mk' (0, 0) "Archer" with
            item_slots := ((Tower.mk' (0, 0) "Archer").apply_item_ops []
              [ItemOp.equip "Unstoppable Force" 0,
               ItemOp.equip "Unstoppable Force" 0]).1.item_slots }).derived ∧
    ((Tower.mk' (0, 0) "Archer").apply_item_ops []
        [ItemOp.equip "Unstoppable Force" 0,
         ItemOp.equip "Unstoppable Force" 0]).1.base_block =
      (Tower.mk' (0, 0) "Archer").base_block :=
  modifier_equips_never_compound (Tower.mk' (0, 0) "Archer") []
    [ItemOp.equip "Unstoppable Force" 0, ItemOp.equip "Unstoppable Force" 0]
    rfl

/- ----------------------------------------------------------------
   C8 — splash secondary damage
   ---------------------------------------------------------------- -/

theorem getM_set_self (ms : List Monster) (i : ℕ) (m : Monster)
    (h : i < ms.length) : getM (ms.set i m) i = m := by
  simp [getM, List.getD, List.getElem?_set_self', h]

theorem getM_set_ne (ms : List Monster) (i j : ℕ) (m : Monster)
    (h : ¬ i = j) : getM (ms.set i m) j = getM ms j := by
  simp [getM, List.getD, List.getElem?_set_ne h]

/-- C8: when a single-target Defense (Archer or Sniper variant, with the
splash-granting "Unstoppable Force" effect enabled) attacks a primary target
`i` while two other live in-range adversaries exist — `j` within the splash
radius of the primary target and `k` outside it — only `j` receives secondary
damage, and that secondary damage is exactly 50% of the Defense's damage
value (`take_damage (t.damage * (1/2))`); `k` is untouched.  The max-health
hypotheses make `i` the Sniper's primary target as well. -/
theorem splash_attack_secondary_damage (t : Tower) (ms : List Monster)
    (i j k : ℕ)
    (hen : t.splash_damage_enabled = true) (hr : 0 < t.splash_damage_radius)
    (htg : t.targets = [i, j, k])
    (hij : ¬ i = j) (hik : ¬ i = k) (hjk : ¬ j = k)
    (hj : j < ms.length) (_hk : k < ms.length)
    (hdi : (getM ms i).is_dead = false)
    (hdj : (getM ms j).is_dead = false)
    (hdk : (getM ms k).is_dead = false)
    (hin : distSq (getM ms j).position (getM ms i).position ≤
      t.splash_damage_radius ^ 2)
    (hout : t.splash_damage_radius ^ 2 <
      distSq (getM ms k).position (getM ms i).position)
    (hmaxj : (getM ms j).health ≤ (getM ms i).health)
    (hmaxk : (getM ms k).health ≤ (getM ms i).health) :
    (getM (ArcherTower.attack t ms).1 j =
        ((getM ms j).take_damage (t.damage * (1/2))).1 ∧
     getM (ArcherTower.attack t ms).1 k = getM ms k) ∧
    (getM (SniperTower.attack t ms).1 j =
        ((getM ms j).take_damage (t.damage * (1/2))).1 ∧
     getM (SniperTower.attack t ms).1 k = getM ms k) := by
  have hndi : ¬ ((getM ms i).is_dead = true) := by rw [hdi]; simp
  have hsj : sqrtLe (distSq (getM ms j).position (getM ms i).position)
      t.splash_damage_radius = true := by
    simp [sqrtLe, hin, le_of_lt hr]
  have hsk : sqrtLe (distSq (getM ms k).position (getM ms i).position)
      t.splash_damage_radius = false := by
    simp [sqrtLe, not_le.mpr hout]
  have hji : ¬ j = i := fun hh => hij hh.symm
  have hki : ¬ k = i := fun hh => hik hh.symm
  have e1 : ∀ m : Monster, getM (ms.set i m) j = getM ms j :=
    fun m => getM_set_ne ms i j m hij
  have e2 : ∀ m m' : Monster, getM ((ms.set i m).set j m') k = getM ms k :=
    fun m m' => by
      rw [getM_set_ne _ j k m' hjk, getM_set_ne _ i k m hik]
  have e3 : ∀ m m' : Monster, getM ((ms.set i m).set j m') j = m' :=
    fun m m' => getM_set_self _ j m' (by rw [List.length_set]; exact hj)
  have hsplash : ∀ ms1 : List Monster,
      ms1 = ms.set i ((getM ms i).take_damage t.damage).1 →
      (splash_loop t.damage t.splash_damage_radius (getM ms i).position i
        [i, j, k] ms1).1 =
        (ms.set i ((getM ms i).take_damage t.damage).1).set j
          ((getM ms j).take_damage (t.damage * (1/2))).1 := by
    intro ms1 hms1
    subst hms1
    simp only [splash_loop, List.foldl_cons, List.foldl_nil, if_pos rfl,
      if_neg hji, if_neg hki, e1, e2, hdj, hdk, hsj, hsk]
    simp [e1, e2, hdj, hdk, hsj, hsk]
  constructor
  · -- Archer: primary target is the head of the targets list, i.e. i
    simp only [ArcherTower.attack, htg]
    rw [if_neg hndi, if_pos ⟨hen, hr⟩, hsplash _ rfl]
    exact ⟨e3 _ _, e2 _ _⟩
  · -- Sniper: primary target is the first max-health target, i.e. i
    have hmax : max_health_target ms i [j, k] = i := by
      simp only [max_health_target, List.foldl_cons, List.foldl_nil,
        if_neg (not_lt.mpr hmaxj), if_neg (not_lt.mpr hmaxk)]
    simp only [SniperTower.attack, htg, hmax]
    rw [if_neg hndi, if_pos ⟨hen, hr⟩, hsplash _ rfl]
    exact ⟨e3 _ _, e2 _ _⟩

/-- An Archer tower whose "Unstoppable Force" splash effect is active (fields
as `apply_item_effects` sets them: radius `scale_value 30 = 72`), currently
targeting monsters 0, 1, 2. -/
def splash_archer : Tower :=
  { Tower.mk' (0, 0) "Archer" with
      splash_damage_enabled := true
      splash_damage_radius := 72
      targets := [0, 1, 2] }

/-- Primary target at the origin, one monster 10 units away (inside the
72-unit splash radius), one 1000 units away (outside it). -/
def splash_monsters : List Monster :=
  [{ live_grunt with position := (0, 0), health := 100, max_health := 100 },
   { live_grunt with position := (10, 0) },
   { live_grunt with position := (1000, 0) }]

/-- Witness for C8 at the concrete configuration above. -/
theorem splash_attack_secondary_damage_witness :
    (getM (ArcherTower.attack splash_archer splash_monsters).1 1 =
        ((getM splash_monsters 1).take_damage
          (splash_archer.damage * (1/2))).1 ∧
     getM (ArcherTower.attack splash_archer splash_monsters).1 2 =
        getM splash_monsters 2) ∧
    (getM (SniperTower.attack splash_archer splash_monsters).1 1 =
        ((getM splash_monsters 1).take_damage
          (splash_archer.damage * (1/2))).1 ∧
     getM (SniperTower.attack splash_archer splash_monsters).1 2 =
        getM splash_monsters 2) := by
  refine splash_attack_secondary_damage splash_archer splash_monsters 0 1 2
    rfl ?_ rfl (by decide) (by decide) (by decide) (by decide) (by decide)
    rfl rfl rfl ?_ ?_ ?_ ?_
  · show (0 : ℚ) < 72
    norm_num
  · show distSq (10, 0) (0, 0) ≤ (72 : ℚ) ^ 2
    norm_num [distSq]
  · show (72 : ℚ) ^ 2 < distSq (1000, 0) (0, 0)
    norm_num [distSq]
  · show (50 : ℚ) ≤ 100
    norm_num
  · show (50 : ℚ) ≤ 100
    norm_num

/- ----------------------------------------------------------------
   C9 — placement confirmation and cancellation
   ---------------------------------------------------------------- -/

/-- C9: placement confirmation creates a Defense and appends it to the tower
set exactly when the position passes the objective-boundary/collision checks
AND the ledger can afford the variant's full cost; the cost (in-kind plus
Monster Coins) is spent atomically on success; any failed confirm leaves the
game unchanged (no resources spent, no Defense created); and cancelling
leaves towers and ledger untouched and clears the pending type.  `wc` is the
castle-boundary predicate (castle.py is not under `src/`), `brs` the
building footprints. -/
theorem placement_confirm_and_cancel_atomic (wc : ℚ × ℚ → Bool)
    (brs : List PRect) (g : GameS) (pos : ℚ × ℚ) (ty : String)
    (hty : ty = "Archer" ∨ ty = "Sniper" ∨ ty = "Splash" ∨ ty = "Frozen") :
    (GameS.is_valid_tower_position wc brs g pos = true →
      has_resources_for_tower g.rm (tower_placement_cost ty)
        (tower_monster_coin_cost_placement ty) = true →
      place_tower wc brs (some ty) g pos =
        .ok ({ g with
          rm := (spend_resources_for_tower g.rm (tower_placement_cost ty)
            (tower_monster_coin_cost_placement ty)).1,
          towers := g.towers ++ [Tower.mk' pos ty] }, true) ∧
      ∀ kk, get_resource (spend_resources_for_tower g.rm
          (tower_placement_cost ty) (tower_monster_coin_cost_placement ty)).1
          kk =
        get_resource g.rm kk - cost_amount (tower_placement_cost ty) kk -
          (if kk = "Monster Coins" then tower_monster_coin_cost_placement ty
           else 0)) ∧
    (GameS.is_valid_tower_position wc brs g pos = false ∨
      has_resources_for_tower g.rm (tower_placement_cost ty)
        (tower_monster_coin_cost_placement ty) = false →
      place_tower wc brs (some ty) g pos = .ok (g, false)) ∧
    (place_tower wc brs none g pos = .ok (g, false)) ∧
    ((cancel_placement g).2.towers = g.towers ∧
     (cancel_placement g).2.rm = g.rm ∧ (cancel_placement g).1 = none) := by
  have hcreate : TowerFactory.create_tower ty pos = .ok (Tower.mk' pos ty) := by
    rcases hty with h | h | h | h <;> subst h <;> rfl
  refine ⟨?_, ?_, rfl, rfl, rfl, rfl⟩
  · intro hv ha
    have hsp : spend_resources_for_tower g.rm (tower_placement_cost ty)
        (tower_monster_coin_cost_placement ty) =
        (add_resource ((tower_placement_cost ty).foldl
            (fun r p => add_resource r p.1 (-p.2)) g.rm)
          "Monster Coins" (-(tower_monster_coin_cost_placement ty)), true) := by
      simp [spend_resources_for_tower, ha]
    constructor
    · simp only [place_tower, hv]
      rw [if_neg (by simp), hsp]
      simp only [hcreate]
      simp
    · intro kk
      rw [hsp]
      simp only [get_resource_add, get_resource_spend_fold]
      by_cases hkk : kk = "Monster Coins"
      · subst hkk
        simp only [if_true]
        omega
      · have h' : ¬ ("Monster Coins" : String) = kk := fun hh => hkk hh.symm
        simp [h', hkk]
  · intro hfail
    by_cases hv : GameS.is_valid_tower_position wc brs g pos = true
    · have ha : has_resources_for_tower g.rm (tower_placement_cost ty)
          (tower_monster_coin_cost_placement ty) = false := by
        rcases hfail with h | h
        · rw [hv] at h; exact absurd h (by simp)
        · exact h
      have hsp : spend_resources_for_tower g.rm (tower_placement_cost ty)
          (tower_monster_coin_cost_placement ty) = (g.rm, false) := by
        simp [spend_resources_for_tower, ha]
      simp only [place_tower, hv]
      rw [if_neg (by simp), hsp]
      rfl
    · have hv' : GameS.is_valid_tower_position wc brs g pos = false := by
        revert hv; cases GameS.is_valid_tower_position wc brs g pos <;> simp
      simp only [place_tower, hv']
      rw [if_pos (by simp)]

/-- A game mid-placement: empty field, the initial 100 Stone / 50 Monster
Coins ledger. -/
def g_place : GameS :=
  { castle := { health := 1000, max_health := 1000, damage_reduction := 1/10,
                health_regen := 1, level := 1 }
    waves := WaveState.init
    rm := [("Stone", 100), ("Monster Coins", 50)]
    towers := []
    current_state := "tower_placement" }

/-- Witness for C9: an Archer placed at the origin on an open field is
created, appended, and paid for exactly once (100 − 20 = 80 Stone,
50 − 15 = 35 Monster Coins). -/
theorem placement_confirm_and_cancel_atomic_witness :
    place_tower (fun _ => true) [] (some "Archer") g_place (0, 0) =
      .ok ({ g_place with
        rm := (spend_resources_for_tower g_place.rm
          (tower_placement_cost "Archer")
          (tower_monster_coin_cost_placement "Archer")).1,
        towers := g_place.towers ++ [Tower.mk' (0, 0) "Archer"] }, true) ∧
    get_resource (spend_resources_for_tower g_place.rm
      (tower_placement_cost "Archer")
      (tower_monster_coin_cost_placement "Archer")).1 "Stone" = 80 ∧
    get_resource (spend_resources_for_tower g_place.rm
      (tower_placement_cost "Archer")
      (tower_monster_coin_cost_placement "Archer")).1 "Monster Coins" = 35 := by
  have h := placement_confirm_and_cancel_atomic (fun _ => true) [] g_place
    (0, 0) "Archer" (Or.inl rfl)
  have hv : GameS.is_valid_tower_position (fun _ => true) [] g_place (0, 0)
      = true := rfl
  have ha : has_resources_for_tower g_place.rm (tower_placement_cost "Archer")
      (tower_monster_coin_cost_placement "Archer") = true := by decide
  obtain ⟨heq, hled⟩ := h.1 hv ha
  refine ⟨heq, ?_, ?_⟩
  · rw [hled "Stone"]; decide
  · rw [hled "Monster Coins"]; decide
